import Mathlib

/-!
Verification development for the ptop-analyzer MCP server.

This file gives a shallow embedding, in Lean 4, of the parts of the Python
source that the verified claims are about:

* `src/mcp_server/ingestion/parser.py` (the PTOPS log line state machine and
  its metric-sample expansion),
* `src/mcp_server/timescale/writer.py` (row coalescing and alias handling),
* `src/mcp_server/timescale/schema_spec.py` (the declarative schema registry),
* `src/mcp_server/ingestion/ptops_ingest.py` (log discovery),
* `src/mcp_server/mcp_app.py` (the category defaulting of the load_bundle
  tool, the archive-member safety filter, and the read-only SQL gateway).

Modelling conventions:

* Python strings are Lean `String`s; character-level work is done on
  `List Char` via `String.data`.
* Python floats are modelled as exact rationals (`ℚ`).  All numeric values in
  the claims are short decimal literals, which both representations carry
  exactly; the only arithmetic performed (one division in the FPP branch) is
  also exact on the inputs the claims mention.
* Python `int` timestamps are Lean `Int`.
* Python dicts are insertion-ordered association lists with last-write-wins
  update semantics, exactly as CPython guarantees.
* Fallible Python code (uncaught exceptions) is modelled with `Option` /
  explicit error flags; a caught exception is modelled by the handler's
  behaviour.
-/

namespace Ptop

/-! ## Python string primitives -/

/-- Whitespace set used by Python `str.strip()` / `str.split()` and by the
regex class `\s` (ASCII fragment). -/
def pyIsSpace (c : Char) : Bool :=
  c == ' ' || c == '\t' || c == '\n' || c == '\x0d' || c == '\x0b' || c == '\x0c'

/-- ASCII decimal digit (regex `\d`, `str.isdigit` on ASCII input). -/
def isDig (c : Char) : Bool := '0' ≤ c && c ≤ '9'

/-- Regex word character `\w` = `[A-Za-z0-9_]`. -/
def isWordChar (c : Char) : Bool :=
  isDig c || ('a' ≤ c && c ≤ 'z') || ('A' ≤ c && c ≤ 'Z') || c == '_'

/-- Regex class `[0-9.]`. -/
def isNumDot (c : Char) : Bool := isDig c || c == '.'

/-- Regex `\S` (non-whitespace). -/
def isNonSpace (c : Char) : Bool := !(pyIsSpace c)

/-- ASCII letter (regex `[a-zA-Z]`, `str.isalpha` on ASCII input). -/
def isAsciiAlpha (c : Char) : Bool := ('a' ≤ c && c ≤ 'z') || ('A' ≤ c && c ≤ 'Z')

/-- Python `s.isdigit()` on ASCII input: nonempty and all digits. -/
def pyIsDigitStr (s : String) : Bool := !s.data.isEmpty && s.data.all isDig

/-- Python `s.isalpha()` on ASCII input: nonempty and all letters. -/
def pyIsAlphaStr (s : String) : Bool := !s.data.isEmpty && s.data.all isAsciiAlpha

/-- Boolean list-prefix test on characters (used to state `str.startswith`
and metric-name prefix properties). -/
def lcHasPfx : List Char → List Char → Bool
  | [], _ => true
  | p :: ps, c :: cs => p == c && lcHasPfx ps cs
  | _ :: _, [] => false

/-- Python `s.startswith(p)`. -/
def pyStartsWith (s p : String) : Bool := lcHasPfx p.data s.data

/-- Substring occurrence, `p in s` for Python strings. -/
def lcHasSub (p : List Char) : List Char → Bool
  | [] => lcHasPfx p []
  | c :: cs => lcHasPfx p (c :: cs) || lcHasSub p cs

/-- Python `p in s`. -/
def pyContains (s p : String) : Bool := lcHasSub p.data s.data

/-- Drop leading characters satisfying `f` (helper for strips and splits). -/
def lcDropWhile (f : Char → Bool) : List Char → List Char
  | [] => []
  | c :: cs => if f c then lcDropWhile f cs else c :: cs

/-- Take leading characters satisfying `f`. -/
def lcTakeWhile (f : Char → Bool) : List Char → List Char
  | [] => []
  | c :: cs => if f c then c :: lcTakeWhile f cs else []

/-- Python `s.strip()` (no argument: whitespace on both ends). -/
def pyStrip (s : String) : String :=
  ⟨((lcDropWhile pyIsSpace s.data).reverse |> lcDropWhile pyIsSpace).reverse⟩

/-- Python `s.strip(chars)` restricted to one strip character. -/
def pyStripChar (s : String) (ch : Char) : String :=
  ⟨((lcDropWhile (· == ch) s.data).reverse |> lcDropWhile (· == ch)).reverse⟩

/-- Python `s.rstrip(chars)` restricted to one strip character
(`rstrip('\n')`, `rstrip(';')`, `rstrip('%')`). -/
def pyRstripChar (s : String) (ch : Char) : String :=
  ⟨(lcDropWhile (· == ch) s.data.reverse).reverse⟩

/-- Whitespace-run split, Python `s.split()` with no separator: empty pieces
are never produced.  `acc` is the current token, reversed. -/
def lcSplitWsAux : List Char → List Char → List String
  | [], acc => if acc.isEmpty then [] else [⟨acc.reverse⟩]
  | c :: cs, acc =>
    if pyIsSpace c then
      if acc.isEmpty then lcSplitWsAux cs []
      else ⟨acc.reverse⟩ :: lcSplitWsAux cs []
    else lcSplitWsAux cs (c :: acc)

/-- Python `s.split()`. -/
def pySplit (s : String) : List String := lcSplitWsAux s.data []

/-- Single-character separator split, Python `s.split(sep)`: empty pieces are
kept (between adjacent separators and at the ends). -/
def lcSplitSep (sep : Char) : List Char → List (List Char)
  | [] => [[]]
  | c :: cs =>
    if c == sep then [] :: lcSplitSep sep cs
    else
      match lcSplitSep sep cs with
      | [] => [[c]]
      | p :: ps => (c :: p) :: ps

/-- Python `s.split(sep)` for a one-character separator. -/
def pySplitSep (s : String) (sep : Char) : List String :=
  (lcSplitSep sep s.data).map (fun l => ⟨l⟩)

/-- Python `s.replace(old, new, 1)` for the specific call
`v.replace('.', '', 1)`: remove the first dot. -/
def lcRemoveFirst (tgt : Char) : List Char → List Char
  | [] => []
  | c :: cs => if c == tgt then cs else c :: lcRemoveFirst tgt cs

/-- Python `v.replace('.', '', 1).isdigit()` combination used by the parser's
numeric-token guards. -/
def pyDigitAfterDropDot (s : String) : Bool :=
  pyIsDigitStr ⟨lcRemoveFirst '.' s.data⟩

/-- Python `s.lower()` (ASCII fragment). -/
def pyLower (s : String) : String :=
  ⟨s.data.map fun c => if 'A' ≤ c ∧ c ≤ 'Z' then Char.ofNat (c.toNat + 32) else c⟩

/-- Python `s.upper()` (ASCII fragment). -/
def pyUpper (s : String) : String :=
  ⟨s.data.map fun c => if 'a' ≤ c ∧ c ≤ 'z' then Char.ofNat (c.toNat - 32) else c⟩

/-- Numeric value of a digit list (most significant first). -/
def digitsToNat : List Char → Nat
  | [] => 0
  | c :: cs => (c.toNat - 48) * 10 ^ cs.length + digitsToNat cs

/-- Python `int(s)` on a nonempty all-digit string. -/
def pyIntOfDigits (s : String) : Int := Int.ofNat (digitsToNat s.data)

/-- Exact-rational division by cross multiplication: equals `a / b` for
`b > 0` (kernel-computable, unlike the instance-routed `/`); used only under
a positivity guard. -/
def ratDiv (a b : ℚ) : ℚ := mkRat (a.num * Int.ofNat b.den) (a.den * b.num.toNat)

/-- Python `float(s)`: the finite decimal-literal fragment
`[ws] [sign] (digits [. digits] | . digits) [(e|E) [sign] digits] [ws]`.
Returns `none` (a `ValueError`) on anything else; in particular a token with
two dots such as `1.2.3` fails, exactly as `float` raises.  The value
`sign * (I.F) * 10^exp` is assembled with `mkRat` so that it is exact and
kernel-computable. -/
def pyFloat (s : String) : Option ℚ :=
  let cs := lcDropWhile pyIsSpace s.data
  let (sgn, cs) :=
    match cs with
    | '-' :: rest => ((-1 : Int), rest)
    | '+' :: rest => ((1 : Int), rest)
    | rest => ((1 : Int), rest)
  let intPart := lcTakeWhile isDig cs
  let cs := lcDropWhile isDig cs
  let (fracPart, cs) :=
    match cs with
    | '.' :: rest => (lcTakeWhile isDig rest, lcDropWhile isDig rest)
    | rest => ([], rest)
  if intPart.isEmpty ∧ fracPart.isEmpty then none
  else
    let expAndRest : Option (Int × List Char) :=
      match cs with
      | 'e' :: rest | 'E' :: rest =>
        let (esign, rest) :=
          match rest with
          | '-' :: r => ((-1 : Int), r)
          | '+' :: r => ((1 : Int), r)
          | r => ((1 : Int), r)
        let eDigits := lcTakeWhile isDig rest
        let rest := lcDropWhile isDig rest
        if eDigits.isEmpty then none
        else some (esign * Int.ofNat (digitsToNat eDigits), rest)
      | rest => some ((0 : Int), rest)
    match expAndRest with
    | none => none
    | some (expVal, cs) =>
      if !(lcDropWhile pyIsSpace cs).isEmpty then none
      else
        let mant : Int :=
          sgn * Int.ofNat (digitsToNat intPart * 10 ^ fracPart.length + digitsToNat fracPart)
        some (if 0 ≤ expVal then
            mkRat (mant * Int.ofNat (10 ^ expVal.toNat)) (10 ^ fracPart.length)
          else
            mkRat mant (10 ^ (fracPart.length + (-expVal).toNat)))

/-! ## Ordered dictionaries (CPython dict semantics) -/

/-- Insertion-ordered association list standing for a Python dict.  Keys are
unique by construction of `dset`. -/
abbrev Dct (α : Type) : Type := List (String × α)

/-- Membership / first-match lookup, Python `d.get(k)` (with default `None`).  -/
def dget {α : Type} (d : Dct α) (k : String) : Option α :=
  match d with
  | [] => none
  | (k2, v) :: rest => if k2 = k then some v else dget rest k

/-- Python `d[k] = v`: replace in place when the key exists (keeping its
position), append otherwise. -/
def dset {α : Type} (d : Dct α) (k : String) (v : α) : Dct α :=
  match d with
  | [] => [(k, v)]
  | (k2, v2) :: rest => if k2 = k then (k2, v) :: rest else (k2, v2) :: dset rest k v

/-- Python `d.update(e)` / `{**d, **e}`: fold the entries of `e` into `d`. -/
def dupdate {α : Type} (d e : Dct α) : Dct α :=
  e.foldl (fun acc kv => dset acc kv.1 kv.2) d

/-! ## Category defaulting (`mcp_app.load_bundle` / `_load_bundle_impl`) -/

/-- The category list hard-coded in the `load_bundle` tool
(`all_categories` in `mcp_app.load_bundle`). -/
def allCategories : List String :=
  ["CPU", "MEM", "DISK", "NET", "TOP", "SMAPS", "DB", "FASTPATH", "OTHER"]

/-- `load_bundle` tool body: `eff_categories = categories if categories else
all_categories` --- Python truthiness makes both `None` and `[]` fall back to
the full list. -/
def loadBundleEffCategories (categories : Option (List String)) : List String :=
  match categories with
  | none => allCategories
  | some l => if l.isEmpty then allCategories else l

/-- `_load_bundle_impl` line 230:
`cat_set = {c.strip().upper() for c in (categories or [])} or {'CPU'}`.
The Python set is modelled as the list of its elements (every consumer tests
only membership and truthiness, both of which agree with the list). -/
def implCatSet (categories : Option (List String)) : List String :=
  let s := (categories.getD []).map (fun c => pyUpper (pyStrip c))
  if s.isEmpty then ["CPU"] else s

/-- The allowlist that actually reaches ingestion when the `load_bundle` tool
is invoked: the tool computes `eff_categories` and passes it to
`_load_bundle_impl`, which builds `cat_set` from it. -/
def loadBundleCatSet (categories : Option (List String)) : List String :=
  implCatSet (some (loadBundleEffCategories categories))

/-! ## Archive member safety filter (`mcp_app._extract_bundle._safe_members`) -/

/-- The rejection test of `_safe_members`:
`m.name.startswith('/') or '..' in m.name.split('/')` --- note the second
disjunct looks for a path *segment* equal to `..`, not for a substring. -/
def memberUnsafe (name : String) : Bool :=
  pyStartsWith name "/" || (pySplitSep name '/').contains ".."

/-- `_safe_members` yields exactly the members passing the test, and
`tf.extractall(dest, members=_safe_members(...))` writes exactly the yielded
members under the destination. -/
def extractedMembers (names : List String) : List String :=
  names.filter (fun n => !(memberUnsafe n))

/-! ## Log discovery (`ptops_ingest.discover_ptop_logs`) -/

/-- Take exactly `n` leading digits. -/
def takeDigits : Nat → List Char → Option (List Char × List Char)
  | 0, cs => some ([], cs)
  | _ + 1, [] => none
  | n + 1, c :: cs =>
    if isDig c then (takeDigits n cs).map (fun p => (c :: p.1, p.2)) else none

/-- `PTOP_LOG_PATTERN = re.compile(r"ptop-(\d{8})_(\d{4})\.log$")` applied with
`re.match` (anchored at the start; `$` anchors the end).  Returns the two
digit groups. -/
def ptopLogMatch (name : String) : Option (String × String) :=
  let cs := name.data
  if lcHasPfx "ptop-".data cs then
    match takeDigits 8 (cs.drop 5) with
    | none => none
    | some (d8, rest) =>
      match rest with
      | '_' :: rest2 =>
        match takeDigits 4 rest2 with
        | none => none
        | some (d4, rest3) => if rest3 = ".log".data then some (⟨d8⟩, ⟨d4⟩) else none
      | _ => none
  else none

/-- Gregorian leap year (as Python `datetime` uses). -/
def isLeap (y : Nat) : Bool := y % 4 = 0 && (y % 100 ≠ 0 || y % 400 = 0)

/-- Days in a month, for `datetime` range validation. -/
def daysInMonth (y m : Nat) : Nat :=
  if m = 2 then (if isLeap y then 29 else 28)
  else if m = 4 ∨ m = 6 ∨ m = 9 ∨ m = 11 then 30 else 31

/-- `datetime.strptime(d8 + d4, "%Y%m%d%H%M")` followed by
`int(dt.timestamp())`, modelled up to a strictly order-preserving re-encoding
of the timestamp: invalid dates raise (i.e. return `none`), valid ones map to
the minute ordinal `((((y*13+mo)*32+d)*24+h)*60+mi)`, which orders file names
exactly as the epoch seconds do. -/
def pyStrptimeYmdHm (d8 d4 : String) : Option Nat :=
  match d8.data, d4.data with
  | [y1, y2, y3, y4, o1, o2, a1, a2], [h1, h2, i1, i2] =>
    let y := digitsToNat [y1, y2, y3, y4]
    let mo := digitsToNat [o1, o2]
    let d := digitsToNat [a1, a2]
    let h := digitsToNat [h1, h2]
    let mi := digitsToNat [i1, i2]
    if 1 ≤ y ∧ y ≤ 9999 ∧ 1 ≤ mo ∧ mo ≤ 12 ∧ 1 ≤ d ∧ d ≤ daysInMonth y mo
        ∧ h ≤ 23 ∧ mi ≤ 59 then
      some (((((y * 13 + mo) * 32 + d) * 24 + h) * 60) + mi)
    else none
  | _, _ => none

/-- Lexicographic order on `(timestamp, path)` candidate pairs, mirroring
Python tuple comparison. -/
def candLt (a b : Nat × String) : Bool :=
  a.1 < b.1 || (a.1 = b.1 && decide (a.2 < b.2))

/-- Stable insertion into a descending list (Python `list.sort(reverse=True)`
keeps equal elements in encounter order; insertion after every element not
less than the new one realizes that). -/
def insertDesc (x : Nat × String) : List (Nat × String) → List (Nat × String)
  | [] => [x]
  | y :: ys => if candLt y x then x :: y :: ys else y :: insertDesc x ys

/-- Python `candidates.sort(reverse=True)` on `(int, str)` tuples. -/
def pySortDesc (l : List (Nat × String)) : List (Nat × String) :=
  l.foldl (fun acc x => insertDesc x acc) []

/-- Stable insertion into an ascending list (Python `sorted`). -/
def insertAsc (x : Nat × String) : List (Nat × String) → List (Nat × String)
  | [] => [x]
  | y :: ys => if candLt x y then x :: y :: ys else y :: insertAsc x ys

/-- Python `sorted(candidates)` on `(int, str)` tuples. -/
def pySortAsc (l : List (Nat × String)) : List (Nat × String) :=
  l.foldl (fun acc x => insertAsc x acc) []

/-- Candidate collection pass of `discover_ptop_logs`: for each directory
entry, keep `(timestamp, path)` when the name matches the pattern and the
embedded datetime parses, emit a `bad_filename_datetime:<name>` warning when
the name matches but the datetime is invalid, silently skip non-matching
names.  The `os.path.join(log_dir, name)` is abstracted to `name` itself. -/
def collectCandidates : List String → List (Nat × String) × List String
  | [] => ([], [])
  | name :: rest =>
    let (cands, warns) := collectCandidates rest
    match ptopLogMatch name with
    | none => (cands, warns)
    | some (d8, d4) =>
      match pyStrptimeYmdHm d8 d4 with
      | some ts => ((ts, name) :: cands, warns)
      | none => (cands, ("bad_filename_datetime:" ++ name) :: warns)

/-- `discover_ptop_logs(root, max_files)` given the directory listing of
`<root>/var/log` (the missing-directory early return is outside this model).
Returns `(selected_files_chronological, warnings)`. -/
def discoverPtopLogs (listing : List String) (maxFiles : Int) : List String × List String :=
  let (cands, warns) := collectCandidates listing
  if cands.isEmpty then ([], ["no_ptop_logs"] ++ warns)
  else
    let sorted := pySortDesc cands
    let (maxF, warns) : Nat × List String :=
      if maxFiles < 1 then (1, warns ++ ["max_files_clamped_min1"]) else (maxFiles.toNat, warns)
    let originalRequested := maxF
    let (sorted, warns) :=
      if sorted.length > maxF then (sorted.take maxF, warns ++ ["max_files_truncated"])
      else (sorted, warns)
    let selected := (pySortAsc sorted).map (·.2)
    let meta := "selected_" ++ toString selected.length ++ "_of_" ++ toString sorted.length
      ++ "_candidates_requested_" ++ toString originalRequested
    (selected, warns ++ [meta])

/-! ## Read-only SQL gateway (`mcp_app.timescale_sql`) -/

/-- Suffix after the first `*/`, or `none` when the block comment is
unterminated. -/
def afterBlockClose : List Char → Option (List Char)
  | [] => none
  | '*' :: '/' :: rest => some rest
  | _ :: rest => afterBlockClose rest

/-- One application of the leading-block-comment regex
`^(\s*/\*.*?\*/\s*)` (DOTALL, lazy): consumes leading whitespace, the
shortest `/* ... */`, and trailing whitespace; fails when the text does not
start that way. -/
def stripOneBlockComment (cs : List Char) : Option (List Char) :=
  let ws := lcDropWhile pyIsSpace cs
  if lcHasPfx "/*".data ws then
    match afterBlockClose (ws.drop 2) with
    | some rest => some (lcDropWhile pyIsSpace rest)
    | none => none
  else none

/-- The `while True` loop stripping leading block comments.  `fuel` bounds the
iterations; each successful strip removes at least the `/*` and `*/`
delimiters, so `cs.length` iterations always suffice. -/
def stripBlockCommentsFuel : Nat → List Char → List Char
  | 0, cs => cs
  | fuel + 1, cs =>
    match stripOneBlockComment cs with
    | some rest => stripBlockCommentsFuel fuel rest
    | none => cs

def stripBlockComments (cs : List Char) : List Char :=
  stripBlockCommentsFuel cs.length cs

/-- Suffix after the first newline, or `none` when there is no newline (the
regex `^(\s*--[^\n]*\n)` then fails to match). -/
def afterNewline : List Char → Option (List Char)
  | [] => none
  | '\n' :: rest => some rest
  | _ :: rest => afterNewline rest

/-- One application of the leading-line-comment regex `^(\s*--[^\n]*\n)`. -/
def stripOneLineComment (cs : List Char) : Option (List Char) :=
  let ws := lcDropWhile pyIsSpace cs
  if lcHasPfx "--".data ws then afterNewline (ws.drop 2)
  else none

/-- The `while True` loop stripping leading line comments. -/
def stripLineCommentsFuel : Nat → List Char → List Char
  | 0, cs => cs
  | fuel + 1, cs =>
    match stripOneLineComment cs with
    | some rest => stripLineCommentsFuel fuel rest
    | none => cs

def stripLineComments (cs : List Char) : List Char :=
  stripLineCommentsFuel cs.length cs

/-- `re.match(r"^([a-zA-Z]+)", tmp)`. -/
def firstKeyword (cs : List Char) : Option String :=
  let k := lcTakeWhile isAsciiAlpha cs
  if k.isEmpty then none else some ⟨k⟩

/-- The DML/DDL keyword blocklist of `timescale_sql`. -/
def disallowedKeywords : List String :=
  ["update", "delete", "insert", "merge", "alter", "create", "drop",
   "truncate", "grant", "revoke", "vacuum", "analyze", "call"]

/-- What the gateway decides before touching the database: either a typed
error, or the SQL text to execute together with the auto-limit flag. -/
inductive SqlOutcome : Type
  | fail (code : String)
  | run (wrapped : String) (autoLimited : Bool)
deriving DecidableEq, Repr

/-- The validation and wrapping logic of `timescale_sql` (everything that
happens before a connection is used; every `fail` outcome is returned without
executing anything). -/
def timescaleSqlGate (sql : String) (maxRows : Int) : SqlOutcome :=
  let q := pyStrip sql
  if q = "" then .fail "empty_query"
  else
    let tmp := stripLineComments (stripBlockComments q.data)
    match firstKeyword tmp with
    | none => .fail "parse_error"
    | some kw0 =>
      let kw := pyLower kw0
      if disallowedKeywords.contains kw then .fail "only_select_allowed"
      else if kw ≠ "select" ∧ kw ≠ "with" then .fail "only_select_allowed"
      else
        let core := pyRstripChar q ';'
        if pyContains core ";" then .fail "multiple_statements_disallowed"
        else
          let enforceLimit := !(pyContains (pyLower sql) " limit ")
          let wrapped :=
            if enforceLimit then
              "WITH _q AS (" ++ core ++ ") SELECT * FROM _q LIMIT " ++ toString maxRows
            else core
          .run wrapped enforceLimit

/-- `truncated = enforce_limit and len(rows) == max_rows` computed on the
result set. -/
def truncatedFlag (autoLimited : Bool) (rowCount maxRows : Int) : Bool :=
  autoLimited && rowCount == maxRows

/-! ## PTOPS log parser (`ingestion/parser.py`) -/

/-- Python values circulating through `ParsedRecord.fields` and
`MetricSample.labels`: `None`, strings, floats (exact rationals here), ints,
and the DBWR/DBWA/DBRD bucket-triplet lists. -/
inductive PyVal : Type
  | pnone
  | str (s : String)
  | num (q : ℚ)
  | intv (n : Int)
  | buckets (l : List (String × ℚ × ℚ))
deriving DecidableEq, Repr

/-- Python `float(v)` on a field value; `none` models the `ValueError` /
`TypeError` such a conversion would raise. -/
def fvalToFloat : PyVal → Option ℚ
  | .num q => some q
  | .intv n => some (mkRat n 1)
  | .str s => pyFloat s
  | _ => none

/-- Python `str(v)` as used on `disk_index` (always an int there); the
rendering of the other variants is a stand-in, unreachable from
parser-produced records. -/
def pyStr : PyVal → String
  | .pnone => "None"
  | .str s => s
  | .intv n => toString n
  | .num q => toString q
  | .buckets _ => "buckets"

/-- Python dict `.get(k)` with its `None` default. -/
def pyDGet (d : Dct PyVal) (k : String) : PyVal :=
  (dget d k).getD .pnone

/-- `ParsedRecord` (the `raw` line is dropped: nothing reads it). `pfx`
models the `prefix` attribute. -/
structure PRecord : Type where
  pfx : String
  fields : Dct PyVal
  tsMs : Int
deriving DecidableEq, Repr

/-- `MetricSample`.  `value` keeps the Python object put into the dataclass
(a float for every parser-produced sample). -/
structure MetricSample : Type where
  name : String
  value : PyVal
  tsMs : Int
  labels : Dct PyVal
deriving DecidableEq, Repr

/-- Parser mutable state: `current_ts_ms` and `self._global_labels`. -/
structure PState : Type where
  ts : Option Int
  gl : Dct PyVal
deriving DecidableEq, Repr

/-! ### Hand-compiled regular expressions

Each Python regex is rendered as a deterministic recogniser.  The sources use
only greedy repeats followed by tokens disjoint from the repeated class (so
greedy matching needs no backtracking), plus the two lazy `.*?` gaps of
`SMAPS_RE`, which are realised by `lazyFind` (leftmost-shortest search). -/

/-- One regex item.  The source regexes use only greedy repeats followed by
tokens disjoint from the repeated class, so a backtracking-free interpreter
is exact for them. -/
inductive Rx : Type
  | lit (s : String)
  | sp1
  | sp0
  | grp (f : Char → Bool)
  | digs (n : Nat)
  | numFrac
  | fracSkip
  | litDigs (s : String)

/-- Interpret a regex item sequence, returning the captured groups (in
pattern order) and the unconsumed suffix (the Python regexes are applied with
`re.match`, i.e. as prefix matches).

* `lit s`: a literal;
* `sp1` / `sp0`: `\s+` / `\s*`;
* `grp f`: a capturing greedy nonempty class repeat (`(\d+)`, `([0-9.]+)`,
  `(\w+)`, `(\S+)`, `([^)]+)`);
* `digs n`: a capturing `(\d{n})`;
* `numFrac`: capturing `([0-9]+(?:\.[0-9]+)?)`;
* `fracSkip`: non-capturing `(?:\.[0-9]+)?`;
* `litDigs s`: capturing `(s\d+|s)` (the `(cpu\d+|cpu)` alternation). -/
def runRx : List Rx → List Char → Option (List String × List Char)
  | [], cs => some ([], cs)
  | .lit s :: ps, cs =>
    if lcHasPfx s.data cs then runRx ps (cs.drop s.length) else none
  | .sp1 :: ps, cs =>
    match cs with
    | c :: rest => if pyIsSpace c then runRx ps (lcDropWhile pyIsSpace rest) else none
    | [] => none
  | .sp0 :: ps, cs => runRx ps (lcDropWhile pyIsSpace cs)
  | .grp f :: ps, cs =>
    let t := lcTakeWhile f cs
    if t.isEmpty then none
    else (runRx ps (lcDropWhile f cs)).map fun pr => ((⟨t⟩ : String) :: pr.1, pr.2)
  | .digs n :: ps, cs =>
    match takeDigits n cs with
    | none => none
    | some (d, cs2) => (runRx ps cs2).map fun pr => ((⟨d⟩ : String) :: pr.1, pr.2)
  | .numFrac :: ps, cs =>
    let ip := lcTakeWhile isDig cs
    if ip.isEmpty then none
    else
      let rest := lcDropWhile isDig cs
      let (fp, rest2) :=
        match rest with
        | '.' :: r =>
          let ds := lcTakeWhile isDig r
          if ds.isEmpty then (([] : List Char), '.' :: r) else ('.' :: ds, lcDropWhile isDig r)
        | r => ([], r)
      (runRx ps rest2).map fun pr => ((⟨ip ++ fp⟩ : String) :: pr.1, pr.2)
  | .fracSkip :: ps, cs =>
    let rest2 :=
      match cs with
      | '.' :: r =>
        let ds := lcTakeWhile isDig r
        if ds.isEmpty then '.' :: r else lcDropWhile isDig r
      | r => r
    runRx ps rest2
  | .litDigs s :: ps, cs =>
    if lcHasPfx s.data cs then
      let cs2 := cs.drop s.length
      let ds := lcTakeWhile isDig cs2
      (runRx ps (lcDropWhile isDig cs2)).map fun pr => ((s ++ ⟨ds⟩ : String) :: pr.1, pr.2)
    else none

/-- Leftmost-shortest search realising a lazy `.*?` followed by the
continuation `k`. -/
def lazyFind {α : Type} (k : List Char → Option α) : List Char → Option α
  | [] => k []
  | c :: cs =>
    match k (c :: cs) with
    | some r => some r
    | none => lazyFind k cs

/-- `TIME_FULL_RE`: uptime, 10-digit epoch, date, time groups. -/
def timeFullMatch (line : String) : Option (String × String × String × String) :=
  match runRx [.lit "TIME", .sp1, .numFrac, .sp1, .digs 10, .fracSkip, .sp1,
      .digs 4, .lit "-", .digs 2, .lit "-", .digs 2, .sp1,
      .digs 2, .lit ":", .digs 2, .lit ":", .digs 2] line.data with
  | some ([up, e10, y4, o2, d2, h2, i2, s2], _) =>
    some (up, e10, y4 ++ "-" ++ o2 ++ "-" ++ d2, h2 ++ ":" ++ i2 ++ ":" ++ s2)
  | _ => none

/-- `TIME_FALLBACK_RE`: `^TIME\s+\d+\s+(\d{10})(?:\.\d+)?\b`.  With or
without the optional fraction, the trailing word boundary holds exactly when
the character right after the ten digits is absent or a non-word character. -/
def timeFallbackMatch (line : String) : Option String :=
  match runRx [.lit "TIME", .sp1, .grp isDig, .sp1, .digs 10] line.data with
  | some ([_, e10], rest) =>
    match rest with
    | [] => some e10
    | c :: _ => if isWordChar c then none else some e10
  | _ => none

/-- `CPU_RE`: cpu id plus the eight numeric groups, in source order. -/
def cpuFullMatch (line : String) : Option (String × List String) :=
  match runRx [.lit "CPU", .sp1, .litDigs "cpu", .sp1, .lit "u", .sp1, .grp isNumDot,
      .sp1, .lit "id/io", .sp1, .grp isNumDot, .sp1, .grp isNumDot,
      .sp1, .lit "u/s/n", .sp1, .grp isNumDot, .sp1, .grp isNumDot, .sp1, .grp isNumDot,
      .sp1, .lit "irq h/s", .sp1, .grp isNumDot, .sp1, .grp isNumDot] line.data with
  | some (cpuId :: gs, _) => some (cpuId, gs)
  | _ => none

/-- `TOP_FULL_RE`. -/
def topFullMatch (line : String) : Option (List String) :=
  match runRx [.lit "TOP", .sp1, .grp isDig, .sp1, .grp isDig, .sp1, .grp isNumDot,
      .lit "%", .sp1, .grp isNumDot, .sp1, .lit "(", .grp isNumDot, .sp1, .grp isNumDot,
      .lit ")", .sp1, .grp isDig, .sp1, .lit "(", .grp (fun c => c ≠ ')'), .lit ")"] line.data with
  | some (gs, _) => some gs
  | _ => none

/-- `TOP_MIN_RE`. -/
def topMinMatch (line : String) : Option (List String) :=
  match runRx [.lit "TOP", .sp1, .grp isDig, .sp1, .grp isDig, .sp1, .grp isNumDot,
      .lit "%"] line.data with
  | some (gs, _) => some gs
  | _ => none

/-- `DISK_RE`: disk index, device, and the eleven numeric groups in source
order (four after `rkxt`, four after `wkxt`, three after `sqb`). -/
def diskMatch (line : String) : Option (String × String × List String) :=
  match runRx [.lit "DISK", .sp1, .grp isDig, .sp1, .grp isWordChar,
      .sp1, .lit "rkxt", .sp1, .grp isNumDot, .sp1, .grp isNumDot, .sp1, .grp isNumDot, .sp1, .grp isNumDot,
      .sp1, .lit "wkxt", .sp1, .grp isNumDot, .sp1, .grp isNumDot, .sp1, .grp isNumDot, .sp1, .grp isNumDot,
      .sp1, .lit "sqb", .sp1, .grp isNumDot, .sp1, .grp isNumDot, .sp1, .grp isNumDot] line.data with
  | some (idx :: dev :: gs, _) => some (idx, dev, gs)
  | _ => none

/-- `NET_RATE_RE`. -/
def netRateMatch (line : String) : Option (String × List String) :=
  match runRx [.lit "NET", .sp1, .grp isWordChar, .sp1, .lit "rk",
      .sp1, .grp isNumDot, .sp1, .grp isNumDot, .sp1, .lit "tk",
      .sp1, .grp isNumDot, .sp1, .grp isNumDot, .sp1, .lit "rd",
      .sp1, .grp isNumDot, .sp1, .lit "td", .sp1, .grp isNumDot] line.data with
  | some (iface :: gs, _) => some (iface, gs)
  | _ => none

/-- `NET_IFSTAT_RE` (literal `NET ifstat`, then `\s*`, then the groups). -/
def netIfstatMatch (line : String) : Option (String × List String) :=
  match runRx [.lit "NET ifstat", .sp0, .grp isWordChar,
      .sp1, .grp isDig, .sp1, .grp isDig, .sp1, .grp isDig,
      .sp1, .grp isDig, .sp1, .grp isDig, .sp1, .grp isDig] line.data with
  | some (iface :: gs, _) => some (iface, gs)
  | _ => none

/-- `IDENT_RE`. -/
def identMatch (line : String) : Option (String × String × String) :=
  match runRx [.lit "IDENT", .sp1, .lit "host", .sp1, .grp isNonSpace,
      .sp1, .lit "host_id", .sp1, .grp isNonSpace,
      .sp1, .lit "ver", .sp1, .grp isNonSpace] line.data with
  | some ([host, hostId, ver], _) => some (host, hostId, ver)
  | _ => none

/-- `IDENT_SIMPLE_RE` (anchored with `$`: the rest must be empty, the lines
having been stripped of their newline). -/
def identSimpleMatch (line : String) : Option (String × String) :=
  match runRx [.lit "IDENT", .sp1, .grp isNonSpace, .sp1, .grp isNonSpace] line.data with
  | some ([ver, hostId], rest) => if rest.isEmpty then some (ver, hostId) else none
  | _ => none

/-- `SMAPS_RE = ^SMAPS\s+(\d+) .*? (\d+) (\d+) .*? c (\S+)`; the two lazy
gaps are leftmost-shortest searches for their continuations. -/
def smapsMatch (line : String) : Option (String × String × String × String) :=
  match runRx [.lit "SMAPS", .sp1, .grp isDig, .lit " "] line.data with
  | some ([pid], cs) =>
    match lazyFind (fun t =>
        match runRx [.lit " ", .grp isDig, .lit " ", .grp isDig, .lit " "] t with
        | some ([rss, swap], t2) =>
          match lazyFind (fun u => runRx [.lit " c ", .grp isNonSpace] u) t2 with
          | some ([ex], _) => some (rss, swap, ex)
          | _ => none
        | _ => none) cs with
    | some (rss, swap, ex) => some (pid, rss, swap, ex)
    | none => none
  | _ => none

/-- `exec_name.rsplit('/', 1)[-1]`: the basename after the last slash. -/
def pyBasenameAfterSlash (s : String) : String :=
  ⟨(lcTakeWhile (fun c => c ≠ '/') s.data.reverse).reverse⟩

/-- Python `int(s)` on a stripped token: optional sign then digits. -/
def pyInt (s : String) : Option Int :=
  let cs := lcDropWhile pyIsSpace s.data
  let (neg, cs) :=
    match cs with
    | '-' :: rest => (true, rest)
    | '+' :: rest => (false, rest)
    | rest => (false, rest)
  let ds := lcTakeWhile isDig cs
  let rest := lcDropWhile pyIsSpace (lcDropWhile isDig cs)
  if ds.isEmpty ∨ !rest.isEmpty then none
  else some (if neg then -(digitsToNat ds : Int) else (digitsToNat ds : Int))

/-! ### Token-scan record builders -/

/-- First index of a token, Python `tokens.index(t)` (`none` models the
`ValueError`). -/
def pyIndex (tokens : List String) (t : String) : Option Nat :=
  match tokens with
  | [] => none
  | x :: rest => if x = t then some 0 else (pyIndex rest t).map (· + 1)

/-- `after(tok) = tokens[tokens.index(tok) + 1]` from the MEM branch;
`none` covers both the `ValueError` of `index` and the `IndexError` of the
subscript. -/
def memAfter (tokens : List String) (t : String) : Option String := do
  let i ← pyIndex tokens t
  tokens.get? (i + 1)

/-- The eight mandatory MEM fields, evaluated in dict-literal order; any
failure aborts the record (outer `except Exception`). -/
def memMandatoryVals (tokens : List String) : Option (List ℚ) :=
  ["t", "f", "b", "c", "s", "a", "sh", "sw"].mapM
    (fun t => (memAfter tokens t).bind pyFloat)

/-- The MEM branch body (lines 240-298): mandatory fields, then the staged
optional sections.  `none` means the line is skipped (the branch always
`continue`s). -/
def memParse (tokens : List String) : Option (Dct PyVal) :=
  match memMandatoryVals tokens with
  | some [vt, vf, vb, vc, vs, va, vsh, vsw] =>
    let fields : Dct PyVal :=
      [("total_memory", .num vt), ("free_percent", .num vf), ("buffers_percent", .num vb),
       ("cached_percent", .num vc), ("slab_percent", .num vs), ("anon_percent", .num va),
       ("sysv_shm_percent", .num vsh), ("swap_used_percent", .num vsw)]
    -- sw <pct> <swap_total_bytes>
    let fields :=
      match pyIndex tokens "sw" with
      | some iSw =>
        if iSw + 2 < tokens.length then
          match pyFloat ((tokens.get? (iSw + 2)).getD "") with
          | some q => dset fields "swap_total_bytes" (.num q)
          | none => fields
        else fields
      | none => fields
    -- h <huge_total> <huge_free>; a failure on the second float keeps the
    -- first assignment, as in the source
    let fields :=
      if tokens.contains "h" then
        match pyIndex tokens "h" with
        | some hI =>
          if hI + 2 < tokens.length then
            match pyFloat ((tokens.get? (hI + 1)).getD "") with
            | none => fields
            | some q1 =>
              let fields := dset fields "hugepages_total" (.num q1)
              match pyFloat ((tokens.get? (hI + 2)).getD "") with
              | none => fields
              | some q2 => dset fields "hugepages_free" (.num q2)
          else fields
        | none => fields
      else fields
    -- A <available_pct>: the inner handler catches only ValueError, so an
    -- IndexError from `after('A')` aborts the whole record
    let fieldsA :=
      if tokens.contains "A" then
        match memAfter tokens "A" with
        | none => none
        | some v =>
          some (match pyFloat v with
            | some q => dset fields "available_percent" (.num q)
            | none => fields)
      else some fields
    match fieldsA with
    | none => none
    | some fields =>
      -- pio <in/s> <out/s>
      let fields :=
        if tokens.contains "pio" then
          match pyIndex tokens "pio" with
          | some pI =>
            if pI + 2 < tokens.length then
              match pyFloat ((tokens.get? (pI + 1)).getD "") with
              | none => fields
              | some q1 =>
                let fields := dset fields "pgpgin_rate" (.num q1)
                match pyFloat ((tokens.get? (pI + 2)).getD "") with
                | none => fields
                | some q2 => dset fields "pgpgout_rate" (.num q2)
            else fields
          | none => fields
        else fields
      -- sio <swin/s> <swout/s>
      let fields :=
        if tokens.contains "sio" then
          match pyIndex tokens "sio" with
          | some sI =>
            if sI + 2 < tokens.length then
              match pyFloat ((tokens.get? (sI + 1)).getD "") with
              | none => fields
              | some q1 =>
                let fields := dset fields "swapin_rate" (.num q1)
                match pyFloat ((tokens.get? (sI + 2)).getD "") with
                | none => fields
                | some q2 => dset fields "swapout_rate" (.num q2)
            else fields
          | none => fields
        else fields
      some fields
  | _ => none

/-- DBWR/DBWA/DBRD triplet collection: `bucket count latency` repeated; a
float failure `break`s, keeping earlier triplets. -/
def dbTriplets : List String → List (String × ℚ × ℚ)
  | bucket :: cnt :: lat :: rest =>
    match pyFloat cnt with
    | none => []
    | some c =>
      match pyFloat lat with
      | none => []
      | some l => (bucket, c, l) :: dbTriplets rest
  | _ => []

/-- DBMPOOL key/value scan: skip `MiB` tokens, keep numeric-looking values
(`v.rstrip('%')` then the one-dot digit test; `float` cannot fail under that
test, so the fallback default is unreachable). -/
def dbmpoolKvAux (fields : Dct PyVal) : List String → Dct PyVal
  | [] => fields
  | k :: rest =>
    if k = "MiB" then dbmpoolKvAux fields rest
    else
      match rest with
      | [] => fields
      | v :: rest2 =>
        let vc := pyRstripChar v '%'
        if pyDigitAfterDropDot vc then
          dbmpoolKvAux (dset fields k (.num ((pyFloat vc).getD (mkRat 0 1)))) rest2
        else dbmpoolKvAux fields rest2

/-- FPPORTS pair scan (`range(2, len, 2)` with the `i+1 < len` guard):
`isdigit` values only. -/
def kvPairsDigits (fields : Dct PyVal) : List String → Dct PyVal
  | k :: v :: rest =>
    kvPairsDigits
      (if pyIsDigitStr v then dset fields k (.num ((pyFloat v).getD (mkRat 0 1))) else fields) rest
  | _ => fields

/-- `FPPORTS` branch; a missing `tokens[1]` is an uncaught `IndexError`. -/
def fpportsParse (tokens : List String) : Option (Dct PyVal) :=
  match tokens.get? 1 with
  | none => none
  | some port =>
    let kv := kvPairsDigits [] (tokens.drop 2)
    some (dset kv "port" (.str port))

/-- FPMBUF pair scan (`range(1, len, 2)`): strip `%`, keep numeric-looking
values. -/
def fpmbufKv (fields : Dct PyVal) : List String → Dct PyVal
  | k :: v :: rest =>
    let vc := pyRstripChar v '%'
    fpmbufKv
      (if pyDigitAfterDropDot vc then dset fields k (.num ((pyFloat vc).getD (mkRat 0 1))) else fields) rest
  | _ => fields

/-- DOT/DOH key/value scan: `rx/tx/dp/qd` followed by a value (advance by 2),
anything else advances by 1; a float failure just skips the pair. -/
def dotScanKv (kv : Dct PyVal) : List String → Dct PyVal
  | k :: v :: rest =>
    if k = "rx" ∨ k = "tx" ∨ k = "dp" ∨ k = "qd" then
      dotScanKv (match pyFloat v with | some q => dset kv k (.num q) | none => kv) rest
    else dotScanKv kv (v :: rest)
  | _ => kv

/-- DOT_STAT / DOH_STAT branch; missing `tokens[1]`/`tokens[2]` is an
uncaught `IndexError`. -/
def dotParse (tokens : List String) : Option (Dct PyVal) :=
  match tokens.get? 1, tokens.get? 2 with
  | some index, some addr =>
    let t3 := (tokens.get? 3).getD ""
    let startIdx :=
      if tokens.headD "" = "DOT_STAT" ∧ 3 < tokens.length ∧ pyIsAlphaStr t3
          ∧ ¬(t3 = "rx" ∨ t3 = "tx" ∨ t3 = "dp" ∨ t3 = "qd") then 4 else 3
    let kv := dotScanKv [] (tokens.drop startIdx)
    some (dupdate [("index", .str index), ("addr", .str addr)] kv)
  | _, _ => none

/-- TCP_DCA_STAT key/value scan (`rx/tx/dp/qd/os/cs/as`). -/
def tcpScanKv (kv : Dct PyVal) : List String → Dct PyVal
  | k :: v :: rest =>
    if k = "rx" ∨ k = "tx" ∨ k = "dp" ∨ k = "qd" ∨ k = "os" ∨ k = "cs" ∨ k = "as" then
      tcpScanKv (match pyFloat v with | some q => dset kv k (.num q) | none => kv) rest
    else tcpScanKv kv (v :: rest)
  | _ => kv

/-- TCP_DCA_STAT branch: guarded by `len(tokens) >= 4`, wrapped in a
try/except, so it never raises; `none` means no record. -/
def tcpParse (tokens : List String) : Option (Dct PyVal) :=
  if tokens.length ≥ 4 then
    match pyInt ((tokens.get? 1).getD "") with
    | none => none
    | some n =>
      let base : Dct PyVal :=
        [("iface_count", .intv n), ("interface_addr", .str ((tokens.get? 2).getD ""))]
      some (tcpScanKv base (tokens.drop 3))
  else none

/-- FPC data-line branch (header lines fall through): at least 6 tokens with
a numeric cpu id; a float `ValueError` is caught and falls through. -/
def fpcParse (tokens : List String) : Option (Dct PyVal) :=
  if tokens.length ≥ 6 ∧ pyIsDigitStr ((tokens.get? 1).getD "") then
    match pyFloat ((tokens.get? 2).getD ""), pyFloat ((tokens.get? 3).getD ""),
        pyFloat ((tokens.get? 4).getD ""), pyFloat ((tokens.get? 5).getD "") with
    | some b, some cy, some cpp, some cic =>
      some [("cpu", .str ((tokens.get? 1).getD "")), ("busy_percent", .num b),
            ("cycles_total", .num cy), ("cycles_per_packet", .num cpp),
            ("cycles_ic_pkt", .num cic)]
    | _, _, _, _ => none
  else none

/-- FPP branch: `FPP <total_cycles> <total_packets>`, computed
`cycles_per_packet = cycles/packets if packets > 0 else 0.0`. -/
def fppParse (tokens : List String) : Option (Dct PyVal) :=
  if tokens.length ≥ 3 then
    match pyFloat ((tokens.get? 1).getD ""), pyFloat ((tokens.get? 2).getD "") with
    | some c, some p =>
      some [("total_cycles", .num c), ("total_packets", .num p),
            ("cycles_per_packet", .num (if 0 < p.num then ratDiv c p else mkRat 0 1))]
    | _, _ => none
  else none

/-- FPS branch: `FPS iod <i> <o> <d> mhb <m> <h> <b>`. -/
def fpsParse (tokens : List String) : Option (Dct PyVal) :=
  if tokens.length ≥ 8 ∧ tokens.contains "iod" ∧ tokens.contains "mhb" then
    match pyIndex tokens "iod", pyIndex tokens "mhb" with
    | some iodI, some mhbI =>
      if iodI + 3 < tokens.length ∧ mhbI + 3 < tokens.length then
        match pyFloat ((tokens.get? (iodI + 1)).getD ""), pyFloat ((tokens.get? (iodI + 2)).getD ""),
            pyFloat ((tokens.get? (iodI + 3)).getD ""), pyFloat ((tokens.get? (mhbI + 1)).getD ""),
            pyFloat ((tokens.get? (mhbI + 2)).getD ""), pyFloat ((tokens.get? (mhbI + 3)).getD "") with
        | some i, some o, some d, some m, some h, some b =>
          some [("incoming_dns_packets", .num i), ("outgoing_dns_packets", .num o),
                ("dropped_dns_packets", .num d), ("missed_dns_packets", .num m),
                ("hit_dns_packets", .num h), ("bypass_dns_packets", .num b)]
        | _, _, _, _, _, _ => none
      else none
    | _, _ => none
  else none

/-- Replace every dash with an underscore (`key.replace('-', '_')`). -/
def pyDashToUnderscore (s : String) : String :=
  ⟨s.data.map (fun c => if c = '-' then '_' else c)⟩

/-- The FPVLSTATS short-token mapping. -/
def fpvlMapping : Dct String :=
  [("F_P", "fpvl_f_pending"), ("F_W", "fpvl_f_working"), ("F_B", "fpvl_f_blocked"),
   ("F_BA", "fpvl_f_blocked_async"), ("N_P", "fpvl_n_pending"), ("N_W", "fpvl_n_working"),
   ("N_B", "fpvl_n_blocked"), ("N_R", "fpvl_n_running"), ("N_BA", "fpvl_n_blocked_async"),
   ("N_DD", "fpvl_n_dropped"), ("T_F", "fpvl_total_fast"), ("T_B", "fpvl_total_blocked")]

/-- FPVLSTATS alternating key/value scan (always advances by 2). -/
def fpvlScan (kv : Dct PyVal) : List String → Dct PyVal
  | k :: v :: rest =>
    let norm := pyDashToUnderscore (pyStripChar (pyStrip k) ':')
    fpvlScan
      (match dget fpvlMapping norm with
       | some name =>
         if pyDigitAfterDropDot v then dset kv name (.num ((pyFloat v).getD (mkRat 0 1))) else kv
       | none => kv) rest
  | _ => kv

/-- `p.split('=', 1)`: the parts before and after the first `=`. -/
def pySplitEqOnce (s : String) : String × String :=
  (⟨lcTakeWhile (fun c => c ≠ '=') s.data⟩, ⟨(lcDropWhile (fun c => c ≠ '=') s.data).drop 1⟩)

/-- Key/value collection of the synthetic `CPU:` test-line branch. -/
def synthKv (kv : Dct String) : List String → Dct String
  | [] => kv
  | p :: rest =>
    if pyContains p "=" then
      let (k, v) := pySplitEqOnce p
      synthKv (dset kv k (pyRstripChar v '%')) rest
    else synthKv kv rest

/-- The synthetic `CPU:` branch (lines 171-194): yields a record only when a
`cpu_utilization` entry is present and parses; otherwise falls through. -/
def synthCpuParse (line : String) : Option (Dct PyVal) :=
  let parts := pySplit line
  let kv := synthKv [] (parts.drop 1)
  match dget kv "cpu_utilization" with
  | none => none
  | some raw =>
    match pyFloat raw with
    | none => none
    | some util =>
      some [("cpu_id", .str "cpu"), ("utilization", .num util), ("idle_percent", .num (mkRat 0 1))]

/-- The simplified CPU fallback branch (lines 196-212), entered when the line
starts with `CPU ` and contains ` irq h/s `, ` u ` and ` id/io `: naive
positional mapping of `toks[1]`, `toks[3]`, `toks[4]`.  `none` means the
branch fell through (short line or utilization `ValueError`). -/
def cpuFallbackParse (line : String) : Option (Dct PyVal) :=
  let toks := pySplit line
  if toks.length ≥ 6 then
    match pyFloat ((toks.get? 3).getD "") with
    | none => none
    | some util =>
      let t4 := (toks.get? 4).getD ""
      let idle : ℚ := if pyDigitAfterDropDot t4 then (pyFloat t4).getD (mkRat 0 1) else mkRat 0 1
      some [("cpu_id", .str ((toks.get? 1).getD "")), ("utilization", .num util),
            ("idle_percent", .num idle)]
  else none

/-! ### Per-line dispatch (`PTOPSParser.iter_records` loop body) -/

/-- Outcome of one non-empty line: consumed without a record, one record, or
an uncaught exception escaping `iter_records`. -/
inductive LineOut : Type
  | skip
  | record (r : PRecord)
  | perr (msg : String)
deriving DecidableEq, Repr

/-- Branches from `FPC` to the end of the loop (each of FPC/FPP/FPS falls
through to the next check when its guarded parse fails). -/
def parseTail (ts : Int) (line : String) : LineOut :=
  let tokens := pySplit line
  if pyStartsWith line "FPC" then
    match fpcParse tokens with
    | some fields => .record ⟨"FPC", fields, ts⟩
    | none => .skip
  else if pyStartsWith line "FPP " then
    match fppParse tokens with
    | some fields => .record ⟨"FPP", fields, ts⟩
    | none =>
      if pyStartsWith line "FPS " then
        match fpsParse tokens with
        | some fields => .record ⟨"FPS", fields, ts⟩
        | none => fpvlCheck ts line tokens
      else fpvlCheck ts line tokens
  else if pyStartsWith line "FPS " then
    match fpsParse tokens with
    | some fields => .record ⟨"FPS", fields, ts⟩
    | none => fpvlCheck ts line tokens
  else fpvlCheck ts line tokens
where
  fpvlCheck (ts : Int) (line : String) (tokens : List String) : LineOut :=
    if pyStartsWith line "FPVLSTATS " then
      let kv := fpvlScan [] (tokens.drop 1)
      if kv.isEmpty then .skip else .record ⟨"FPVLSTATS", kv, ts⟩
    else .skip

/-- Branches from `SMAPS` (regex records and token scans, lines 213-504). -/
def parseMain (ts : Int) (line : String) : LineOut :=
  match smapsMatch line with
  | some (pid, rss, swap, ex) =>
    .record ⟨"SMAPS",
      [("pid", .str pid), ("rss_kib", .num (mkRat (digitsToNat rss.data) 1)),
       ("swap_kib", .num (mkRat (digitsToNat swap.data) 1)),
       ("exec", .str (pyBasenameAfterSlash ex))], ts⟩
  | none =>
  match cpuFullMatch line with
  | some (cpuId, gs) =>
    match gs.mapM pyFloat with
    | some [u, idp, iow, usr, sy, ni, hi, si] =>
      .record ⟨"CPU",
        [("cpu_id", .str cpuId), ("utilization", .num u), ("idle_percent", .num idp),
         ("iowait_percent", .num iow), ("user_percent", .num usr), ("system_percent", .num sy),
         ("nice_percent", .num ni), ("hardirq_percent", .num hi), ("softirq_percent", .num si)], ts⟩
    | _ => .perr "ValueError_float_cpu"
  | none =>
  if pyStartsWith line "MEM " then
    match memParse (pySplit line) with
    | some fields => .record ⟨"MEM", fields, ts⟩
    | none => .skip
  else
  match diskMatch line with
  | some (idx, dev, gs) =>
    match gs.mapM pyFloat with
    | some [r1, r2, r3, r4, w1, w2, w3, w4, s1, s2, s3] =>
      .record ⟨"DISK",
        [("disk_index", .intv (pyIntOfDigits idx)), ("device_name", .str dev),
         ("reads_per_sec", .num r1), ("read_kib_per_sec", .num r2),
         ("read_avg_kb", .num r3), ("read_avg_ms", .num r4),
         ("writes_per_sec", .num w1), ("write_kib_per_sec", .num w2),
         ("write_avg_kb", .num w3), ("write_avg_ms", .num w4),
         ("service_time_ms", .num s1), ("avg_queue_len", .num s2),
         ("device_busy_percent", .num s3)], ts⟩
    | _ => .perr "ValueError_float_disk"
  | none =>
  match netRateMatch line with
  | some (iface, gs) =>
    match gs.mapM pyFloat with
    | some [rxP, rxK, txP, txK, rxD, txD] =>
      .record ⟨"NET_RATE",
        [("interface", .str iface),
         ("rx_packets_per_sec", .num rxP), ("rx_kib_per_sec", .num rxK),
         ("tx_packets_per_sec", .num txP), ("tx_kib_per_sec", .num txK),
         ("rx_drops_per_sec", .num rxD), ("tx_drops_per_sec", .num txD),
         ("rk_packets_per_sec", .num rxP), ("rk_kib_per_sec", .num rxK),
         ("tk_packets_per_sec", .num txP), ("tk_kib_per_sec", .num txK),
         ("rd_drops_per_sec", .num rxD), ("td_drops_per_sec", .num txD)], ts⟩
    | _ => .perr "ValueError_float_net_rate"
  | none =>
  match netIfstatMatch line with
  | some (iface, gs) =>
    match gs with
    | [n1, n2, n3, n4, n5, n6] =>
      .record ⟨"NET_IF",
        [("interface", .str iface),
         ("rx_packets_total", .intv (pyIntOfDigits n1)), ("rx_bytes_total", .intv (pyIntOfDigits n2)),
         ("tx_packets_total", .intv (pyIntOfDigits n3)), ("tx_bytes_total", .intv (pyIntOfDigits n4)),
         ("rx_dropped_packets_total", .intv (pyIntOfDigits n5)),
         ("tx_dropped_packets_total", .intv (pyIntOfDigits n6))], ts⟩
    | _ => .skip
  | none =>
  match topFullMatch line with
  | some [ppid, pid, cpu, total, usr, sy, prio, ex] =>
    match pyFloat cpu, pyFloat total, pyFloat usr, pyFloat sy with
    | some qc, some qt, some qu, some qs =>
      .record ⟨"TOP",
        [("ppid", .str ppid), ("pid", .str pid), ("cpu_percent", .num qc),
         ("total_cpu_seconds", .num qt), ("user_cpu_seconds", .num qu),
         ("system_cpu_seconds", .num qs), ("prio", .str prio), ("exec", .str ex)], ts⟩
    | _, _, _, _ => .perr "ValueError_float_top"
  | some _ => .perr "ValueError_float_top"
  | none =>
  match topMinMatch line with
  | some [ppid, pid, cpu] =>
    match pyFloat cpu with
    | some qc =>
      .record ⟨"TOP", [("ppid", .str ppid), ("pid", .str pid), ("cpu_percent", .num qc)], ts⟩
    | none => .perr "ValueError_float_top_min"
  | some _ => .perr "ValueError_float_top_min"
  | none =>
  if pyStartsWith line "DBWR " ∨ pyStartsWith line "DBWA " ∨ pyStartsWith line "DBRD " then
    let tokens := pySplit line
    .record ⟨tokens.headD "", [("buckets", .buckets (dbTriplets (tokens.drop 1)))], ts⟩
  else if pyStartsWith line "DBMPOOL " then
    .record ⟨"DBMPOOL", dbmpoolKvAux [] ((pySplit line).drop 1), ts⟩
  else if pyStartsWith line "FPPORTS " then
    match fpportsParse (pySplit line) with
    | some fields => .record ⟨"FPPORTS", fields, ts⟩
    | none => .perr "IndexError_fpports"
  else if pyStartsWith line "FPMBUF " then
    .record ⟨"FPMBUF", fpmbufKv [] ((pySplit line).drop 1), ts⟩
  else if pyStartsWith line "DOT_STAT " ∨ pyStartsWith line "DOH_STAT " then
    let tokens := pySplit line
    match dotParse tokens with
    | some fields => .record ⟨tokens.headD "", fields, ts⟩
    | none => .perr "IndexError_dot_doh"
  else if pyStartsWith line "TCP_DCA_STAT " then
    match tcpParse (pySplit line) with
    | some fields => .record ⟨"TCP_DCA_STAT", fields, ts⟩
    | none => .skip
  else parseTail ts line

/-- The body after the timestamp gate: the synthetic `CPU:` branch and the
simplified CPU fallback, both falling through on failure. -/
def parseBody (ts : Int) (line : String) : LineOut :=
  let afterSynth : LineOut :=
    if pyStartsWith line "CPU " ∧ pyContains line " irq h/s "
        ∧ pyContains line " u " ∧ pyContains line " id/io " then
      match cpuFallbackParse line with
      | some fields => .record ⟨"CPU", fields, ts⟩
      | none => parseMain ts line
    else parseMain ts line
  if pyStartsWith line "CPU:" then
    match synthCpuParse line with
    | some fields => .record ⟨"CPU", fields, ts⟩
    | none => afterSynth
  else afterSynth

/-- One non-empty line of `iter_records`: TIME anchors, IDENT labels, the
timestamp gate, then the record branches. -/
def parseLine (st : PState) (line : String) : LineOut × PState :=
  match timeFullMatch line with
  | some (up, e10, dateStr, timeStr) =>
    (.skip, ⟨some (pyIntOfDigits e10 * 1000),
      dupdate st.gl [("uptime_seconds", .str up), ("date", .str dateStr), ("time", .str timeStr)]⟩)
  | none =>
  match timeFallbackMatch line with
  | some e10 => (.skip, ⟨some (pyIntOfDigits e10 * 1000), st.gl⟩)
  | none =>
  match identMatch line with
  | some (host, hostId, ver) =>
    (.skip, ⟨st.ts,
      dupdate st.gl [("host", .str host), ("host_id", .str hostId), ("ptop_version", .str ver)]⟩)
  | none =>
  match identSimpleMatch line with
  | some (ver, hostId) =>
    let gl := if (dget st.gl "host").isNone then dset st.gl "host" (.str hostId) else st.gl
    (.skip, ⟨st.ts, dupdate gl [("host_id", .str hostId), ("ptop_version", .str ver)]⟩)
  | none =>
  match st.ts with
  | none => (.skip, st)
  | some ts => (parseBody ts line, st)

/-! ### Sample expansion (`PTOPSParser.iter_metric_samples`) -/

/-- `PTOPSParser._metric_category`. -/
def metricCategory (p : String) : String :=
  if p = "CPU" then "CPU"
  else if p = "MEM" then "MEM"
  else if p = "DISK" then "DISK"
  else if p = "NET_RATE" ∨ p = "NET_IF" ∨ p = "NET" then "NET"
  else if p = "TOP" then "TOP"
  else if p = "SMAPS" then "SMAPS"
  else if p = "DBWR" ∨ p = "DBWA" ∨ p = "DBRD" ∨ p = "DBMPOOL" then "DB"
  else if p = "FPPORTS" ∨ p = "FPMBUF" ∨ p = "FPC" ∨ p = "FPP" ∨ p = "FPS"
      ∨ p = "DOT_STAT" ∨ p = "DOH_STAT" ∨ p = "TCP_DCA_STAT" ∨ p = "FPVLSTATS" then "FASTPATH"
  else "OTHER"

/-- `PTOPSParser._cpu_metric` name mapping. -/
def cpuMetricMapping : Dct String :=
  [("utilization", "cpu_utilization"), ("idle_percent", "cpu_idle_percent"),
   ("iowait_percent", "cpu_iowait_percent"), ("user_percent", "cpu_user_percent"),
   ("system_percent", "cpu_system_percent"), ("nice_percent", "cpu_nice_percent"),
   ("hardirq_percent", "cpu_hardirq_percent"), ("softirq_percent", "cpu_softirq_percent")]

/-- `_cpu_metric(field)`: `mapping.get(field, f'cpu_{field}')`. -/
def cpuMetric (field : String) : String :=
  match dget cpuMetricMapping field with
  | some n => n
  | none => "cpu_" ++ field

/-- CPU field loop: skip `cpu_id`, convert with `float`, emit the canonical
name and, for `cpu_utilization`, the explicit legacy alias. -/
def cpuLoop (base gl : Dct PyVal) (ts : Int) : List (String × PyVal) → List MetricSample × Option String
  | [] => ([], none)
  | (k, v) :: rest =>
    if k = "cpu_id" then cpuLoop base gl ts rest
    else
      match fvalToFloat v with
      | none => ([], some "ValueError_float_cpu_expand")
      | some q =>
        let labels := dupdate base gl
        let name := cpuMetric k
        let extra :=
          if name = "cpu_utilization" then
            [MetricSample.mk "cpu_utilization_percent" (.num q) ts labels]
          else []
        let pr := cpuLoop base gl ts rest
        (MetricSample.mk name (.num q) ts labels :: extra ++ pr.1, pr.2)

def expandCPU (gl : Dct PyVal) (r : PRecord) : List MetricSample × Option String :=
  match dget r.fields "cpu_id" with
  | none => ([], some "KeyError_cpu_id")
  | some cid =>
    let base : Dct PyVal :=
      [("record_type", .str "CPU"), ("cpu_id", cid), ("cpu", cid),
       ("source", .str "ptops"), ("metric_category", .str (metricCategory r.pfx))]
    cpuLoop base gl r.tsMs r.fields

/-- Generic field loop used by the MEM / DISK / NET ifstat / DBMPOOL /
FPPORTS / FPMBUF / DOT / DOH branches: skip identifier keys, apply `float`,
emit `pre ++ key ++ suf`. -/
def fieldsLoop (pre suf : String) (skipKeys : List String) (labels : Dct PyVal) (ts : Int) :
    List (String × PyVal) → List MetricSample × Option String
  | [] => ([], none)
  | (k, v) :: rest =>
    if skipKeys.contains k then fieldsLoop pre suf skipKeys labels ts rest
    else
      match fvalToFloat v with
      | none => ([], some "ValueError_float_expand")
      | some q =>
        let pr := fieldsLoop pre suf skipKeys labels ts rest
        (MetricSample.mk (pre ++ k ++ suf) (.num q) ts labels :: pr.1, pr.2)

def expandMEM (gl : Dct PyVal) (r : PRecord) : List MetricSample × Option String :=
  let base : Dct PyVal :=
    [("record_type", .str "MEM"), ("source", .str "ptops"),
     ("metric_category", .str (metricCategory r.pfx))]
  fieldsLoop "mem_" "" [] (dupdate base gl) r.tsMs r.fields

def expandDISK (gl : Dct PyVal) (r : PRecord) : List MetricSample × Option String :=
  match dget r.fields "device_name" with
  | none => ([], some "KeyError_device_name")
  | some dev =>
    let base : Dct PyVal :=
      [("record_type", .str "DISK"), ("device_name", dev),
       ("disk_index", .str (pyStr (pyDGet r.fields "disk_index"))),
       ("source", .str "ptops"), ("metric_category", .str (metricCategory r.pfx))]
    fieldsLoop "disk_" "" ["device_name", "disk_index"] (dupdate base gl) r.tsMs r.fields

/-- NET rate key loop: emit `net_<k>` for each listed key present in the
fields. -/
def netKeysLoop (labels : Dct PyVal) (ts : Int) (fields : Dct PyVal) :
    List String → List MetricSample × Option String
  | [] => ([], none)
  | k :: rest =>
    match dget fields k with
    | none => netKeysLoop labels ts fields rest
    | some v =>
      match fvalToFloat v with
      | none => ([], some "ValueError_float_net_expand")
      | some q =>
        let pr := netKeysLoop labels ts fields rest
        (MetricSample.mk ("net_" ++ k) (.num q) ts labels :: pr.1, pr.2)

def normalizedNetKeys : List String :=
  ["rx_packets_per_sec", "rx_kib_per_sec", "tx_packets_per_sec",
   "tx_kib_per_sec", "rx_drops_per_sec", "tx_drops_per_sec"]

def legacyNetKeys : List String :=
  ["rk_packets_per_sec", "rk_kib_per_sec", "tk_packets_per_sec",
   "tk_kib_per_sec", "rd_drops_per_sec", "td_drops_per_sec"]

def expandNETRATE (gl : Dct PyVal) (r : PRecord) : List MetricSample × Option String :=
  match dget r.fields "interface" with
  | none => ([], some "KeyError_interface")
  | some iface =>
    let baseNorm : Dct PyVal :=
      [("record_type", .str "NET"), ("interface", iface), ("kind", .str "rate"),
       ("source", .str "ptops"), ("metric_category", .str (metricCategory r.pfx)),
       ("name_variant", .str "normalized")]
    let (sNorm, eNorm) := netKeysLoop (dupdate baseNorm gl) r.tsMs r.fields normalizedNetKeys
    match eNorm with
    | some e => (sNorm, some e)
    | none =>
      let baseLegacy := dupdate baseNorm [("name_variant", .str "legacy")]
      let (sLeg, eLeg) := netKeysLoop (dupdate baseLegacy gl) r.tsMs r.fields legacyNetKeys
      (sNorm ++ sLeg, eLeg)

def expandNETIF (gl : Dct PyVal) (r : PRecord) : List MetricSample × Option String :=
  match dget r.fields "interface" with
  | none => ([], some "KeyError_interface")
  | some iface =>
    let base : Dct PyVal :=
      [("record_type", .str "NET"), ("interface", iface), ("kind", .str "ifstat"),
       ("source", .str "ptops"), ("metric_category", .str (metricCategory r.pfx))]
    fieldsLoop "net_" "" ["interface"] (dupdate base gl) r.tsMs r.fields

def expandTOP (gl : Dct PyVal) (r : PRecord) : List MetricSample × Option String :=
  match dget r.fields "pid", dget r.fields "ppid" with
  | some pid, some ppid =>
    let base : Dct PyVal :=
      [("record_type", .str "TOP"), ("pid", pid), ("ppid", ppid),
       ("source", .str "ptops"), ("metric_category", .str (metricCategory r.pfx))]
    let base := match dget r.fields "exec" with | some e => dset base "exec" e | none => base
    let base := match dget r.fields "prio" with | some p => dset base "prio" p | none => base
    let merged := dupdate base gl
    match dget r.fields "cpu_percent" with
    | none => ([], some "KeyError_cpu_percent")
    | some cp =>
      let s1 := [MetricSample.mk "tasks_cpu_percent" cp r.tsMs merged,
                 MetricSample.mk "top_cpu_percent" cp r.tsMs merged]
      let s2 := match dget r.fields "total_cpu_seconds" with
        | some v => [MetricSample.mk "tasks_total_cpu_seconds" v r.tsMs merged,
                     MetricSample.mk "top_cpu_time_total_seconds" v r.tsMs merged]
        | none => []
      let s3 := match dget r.fields "user_cpu_seconds" with
        | some v => [MetricSample.mk "tasks_user_cpu_seconds" v r.tsMs merged,
                     MetricSample.mk "top_cpu_time_user_seconds" v r.tsMs merged]
        | none => []
      let s4 := match dget r.fields "system_cpu_seconds" with
        | some v => [MetricSample.mk "tasks_system_cpu_seconds" v r.tsMs merged,
                     MetricSample.mk "top_cpu_time_sys_seconds" v r.tsMs merged]
        | none => []
      (s1 ++ s2 ++ s3 ++ s4, none)
  | _, _ => ([], some "KeyError_top")

def expandSMAPS (gl : Dct PyVal) (r : PRecord) : List MetricSample × Option String :=
  match dget r.fields "pid" with
  | none => ([], some "KeyError_pid")
  | some pid =>
    let base : Dct PyVal :=
      [("record_type", .str "SMAPS"), ("pid", pid), ("exec", pyDGet r.fields "exec"),
       ("source", .str "ptops"), ("metric_category", .str (metricCategory r.pfx))]
    let merged := dupdate base gl
    match dget r.fields "rss_kib", dget r.fields "swap_kib" with
    | some rss, some swap =>
      ([MetricSample.mk "smaps_rss_kb" rss r.tsMs merged,
        MetricSample.mk "smaps_swap_kb" swap r.tsMs merged], none)
    | _, _ => ([], some "KeyError_smaps")

/-- DBWR/DBWA/DBRD bucket loop. -/
def dbBucketLoop (pfx which : String) (gl : Dct PyVal) (ts : Int) :
    List (String × ℚ × ℚ) → List MetricSample
  | [] => []
  | (b, c, l) :: rest =>
    let labels := dupdate
      [("record_type", .str pfx), ("bucket", .str b), ("source", .str "ptops"),
       ("metric_category", .str (metricCategory pfx))] gl
    MetricSample.mk (which ++ "_bucket_count_total") (.num c) ts labels ::
    MetricSample.mk (which ++ "_bucket_avg_latency_seconds") (.num l) ts labels ::
    dbBucketLoop pfx which gl ts rest

def expandDB (gl : Dct PyVal) (r : PRecord) : List MetricSample × Option String :=
  match dget r.fields "buckets" with
  | some (.buckets l) => (dbBucketLoop r.pfx (pyLower r.pfx) gl r.tsMs l, none)
  | some _ => ([], some "TypeError_buckets")
  | none => ([], some "KeyError_buckets")

def expandDBMPOOL (gl : Dct PyVal) (r : PRecord) : List MetricSample × Option String :=
  let base : Dct PyVal :=
    [("record_type", .str "DBMPOOL"), ("source", .str "ptops"),
     ("metric_category", .str (metricCategory r.pfx))]
  fieldsLoop "dbmpool_" "" [] (dupdate base gl) r.tsMs r.fields

def expandFPPORTS (gl : Dct PyVal) (r : PRecord) : List MetricSample × Option String :=
  match dget r.fields "port" with
  | none => ([], some "KeyError_port")
  | some port =>
    let baseLabels := dupdate
      [("record_type", .str "FPPORTS"), ("port", port), ("source", .str "ptops"),
       ("metric_category", .str (metricCategory r.pfx))] gl
    fieldsLoop "fpports_" "_total" ["port"] baseLabels r.tsMs r.fields

def expandFPMBUF (gl : Dct PyVal) (r : PRecord) : List MetricSample × Option String :=
  let base : Dct PyVal :=
    [("record_type", .str "FPMBUF"), ("source", .str "ptops"),
     ("metric_category", .str (metricCategory r.pfx))]
  fieldsLoop "fpm_" "" [] (dupdate base gl) r.tsMs r.fields

def expandDOT (gl : Dct PyVal) (r : PRecord) : List MetricSample × Option String :=
  match dget r.fields "addr" with
  | none => ([], some "KeyError_addr")
  | some addr =>
    let base : Dct PyVal :=
      [("record_type", .str r.pfx), ("addr", addr), ("index", pyDGet r.fields "index"),
       ("source", .str "ptops"), ("metric_category", .str (metricCategory r.pfx))]
    let pre := if r.pfx = "DOT_STAT" then "dot_" else "doh_"
    fieldsLoop pre "_total" ["addr", "index"] (dupdate base gl) r.tsMs r.fields

def tcpMetricMapping : List (String × String) :=
  [("rx", "tcp_dca_rx_packets_total"), ("tx", "tcp_dca_tx_packets_total"),
   ("dp", "tcp_dca_dropped_packets_total"), ("qd", "tcp_dca_queue_drops_total"),
   ("os", "tcp_dca_opened_sessions_total"), ("cs", "tcp_dca_closed_sessions_total"),
   ("as", "tcp_dca_active_sessions")]

/-- TCP_DCA_STAT mapping loop (fixed key order, `float` applied). -/
def tcpLoop (merged : Dct PyVal) (ts : Int) (fields : Dct PyVal) :
    List (String × String) → List MetricSample × Option String
  | [] => ([], none)
  | (k, name) :: rest =>
    match dget fields k with
    | none => tcpLoop merged ts fields rest
    | some v =>
      match fvalToFloat v with
      | none => ([], some "ValueError_float_tcp_expand")
      | some q =>
        let pr := tcpLoop merged ts fields rest
        (MetricSample.mk name (.num q) ts merged :: pr.1, pr.2)

def expandTCP (gl : Dct PyVal) (r : PRecord) : List MetricSample × Option String :=
  let base : Dct PyVal :=
    [("record_type", .str "TCP_DCA_STAT"), ("interface_addr", pyDGet r.fields "interface_addr"),
     ("source", .str "ptops"), ("metric_category", .str (metricCategory r.pfx))]
  let merged := dupdate base gl
  let s0 :=
    match dget r.fields "iface_count" with
    | some v =>
      match fvalToFloat v with
      | some q => ([MetricSample.mk "tcp_dca_interfaces" (.num q) r.tsMs merged], (none : Option String))
      | none => ([], some "ValueError_float_tcp_expand")
    | none => ([], none)
  match s0 with
  | (ss, some e) => (ss, some e)
  | (ss, none) =>
    let (tail, e) := tcpLoop merged r.tsMs r.fields tcpMetricMapping
    (ss ++ tail, e)

def expandFPC (gl : Dct PyVal) (r : PRecord) : List MetricSample × Option String :=
  match dget r.fields "cpu" with
  | none => ([], some "KeyError_cpu")
  | some cpu =>
    let base : Dct PyVal :=
      [("record_type", .str "FPC"), ("cpu", cpu), ("source", .str "ptops"),
       ("metric_category", .str (metricCategory r.pfx))]
    let merged := dupdate base gl
    match dget r.fields "busy_percent", dget r.fields "cycles_total",
        dget r.fields "cycles_per_packet", dget r.fields "cycles_ic_pkt" with
    | some b, some cy, some cpp, some cic =>
      ([MetricSample.mk "fpc_cpu_busy_percent" b r.tsMs merged,
        MetricSample.mk "fpc_cycles_total" cy r.tsMs merged,
        MetricSample.mk "fpc_cycles_per_packet" cpp r.tsMs merged,
        MetricSample.mk "fpc_cycles_ic_pkt" cic r.tsMs merged], none)
    | _, _, _, _ => ([], some "KeyError_fpc")

/-- The `elif` dispatch of `iter_metric_samples`; prefixes without a branch
(notably FPP, FPS and FPVLSTATS have none) yield nothing. -/
def expandRecord (gl : Dct PyVal) (r : PRecord) : List MetricSample × Option String :=
  if r.pfx = "CPU" then expandCPU gl r
  else if r.pfx = "MEM" then expandMEM gl r
  else if r.pfx = "DISK" then expandDISK gl r
  else if r.pfx = "NET_RATE" then expandNETRATE gl r
  else if r.pfx = "NET_IF" then expandNETIF gl r
  else if r.pfx = "TOP" then expandTOP gl r
  else if r.pfx = "SMAPS" then expandSMAPS gl r
  else if r.pfx = "DBWR" ∨ r.pfx = "DBWA" ∨ r.pfx = "DBRD" then expandDB gl r
  else if r.pfx = "DBMPOOL" then expandDBMPOOL gl r
  else if r.pfx = "FPPORTS" then expandFPPORTS gl r
  else if r.pfx = "FPMBUF" then expandFPMBUF gl r
  else if r.pfx = "DOT_STAT" ∨ r.pfx = "DOH_STAT" then expandDOT gl r
  else if r.pfx = "TCP_DCA_STAT" then expandTCP gl r
  else if r.pfx = "FPC" then expandFPC gl r
  else ([], none)

/-! ### Whole-file drivers -/

/-- Python truthiness of the `allowed_categories` set: filtering happens only
when the argument is a nonempty set. -/
def catFilterActive (allowed : Option (List String)) : Bool :=
  match allowed with
  | none => false
  | some s => !s.isEmpty

/-- `iter_records` over the file's raw lines (the file handle iteration plus
`line = raw.rstrip('\n')` and the empty-line skip).  The second component
carries the uncaught exception if one escapes; records yielded before it
are kept. -/
def iterRecordsAux (st : PState) : List String → List PRecord × Option String
  | [] => ([], none)
  | raw :: ls =>
    let line := pyRstripChar raw '\n'
    if line = "" then iterRecordsAux st ls
    else
      match parseLine st line with
      | (.skip, st2) => iterRecordsAux st2 ls
      | (.perr m, _) => ([], some m)
      | (.record r, st2) =>
        let (rs, e) := iterRecordsAux st2 ls
        (r :: rs, e)

def iterRecords (lines : List String) : List PRecord × Option String :=
  iterRecordsAux ⟨none, []⟩ lines

/-- `iter_metric_samples`: interleaves record production with expansion, so
each record is expanded under the global labels current at its yield point;
the category filter suppresses expansion of non-matching records. -/
def iterSamplesAux (allowed : Option (List String)) (st : PState) :
    List String → List MetricSample × Option String
  | [] => ([], none)
  | raw :: ls =>
    let line := pyRstripChar raw '\n'
    if line = "" then iterSamplesAux allowed st ls
    else
      match parseLine st line with
      | (.skip, st2) => iterSamplesAux allowed st2 ls
      | (.perr m, _) => ([], some m)
      | (.record r, st2) =>
        if catFilterActive allowed ∧ ¬((allowed.getD []).contains (metricCategory r.pfx) = true) then
          iterSamplesAux allowed st2 ls
        else
          match expandRecord st2.gl r with
          | (ss, some e) => (ss, some e)
          | (ss, none) =>
            let (tail, e) := iterSamplesAux allowed st2 ls
            (ss ++ tail, e)

def iterMetricSamples (allowed : Option (List String)) (lines : List String) :
    List MetricSample × Option String :=
  iterSamplesAux allowed ⟨none, []⟩ lines

/-! ## Schema spec (`timescale/schema_spec.py`)

Descriptions are omitted (no code path reads them); every other field of the
`Metric` / `TableGroup` dataclasses is transcribed. -/

structure Metric : Type where
  kind : String
  unit : Option String := none
  aliases : List String := []
  column : Option String := none
deriving DecidableEq, Repr

structure TableGroup : Type where
  table : String
  category : String
  localLabels : List String
  metrics : Dct Metric
  uniqueKey : List String := []
  indexes : List (List String) := []
deriving DecidableEq, Repr

def SCHEMA_SPEC : Dct TableGroup :=
  [("CPU",
    { table := "ptops_cpu", category := "cpu", localLabels := ["cpu_id"],
      metrics :=
        [("cpu_utilization", { kind := "gauge", unit := some "percent", aliases := ["cpu_utilization_percent", "utilization"] }),
         ("cpu_idle_percent", { kind := "gauge", unit := some "percent" }),
         ("cpu_iowait_percent", { kind := "gauge", unit := some "percent" }),
         ("cpu_user_percent", { kind := "gauge", unit := some "percent" }),
         ("cpu_system_percent", { kind := "gauge", unit := some "percent" }),
         ("cpu_nice_percent", { kind := "gauge", unit := some "percent" }),
         ("cpu_hardirq_percent", { kind := "gauge", unit := some "percent" }),
         ("cpu_softirq_percent", { kind := "gauge", unit := some "percent" })] }),
   ("TOP",
    { table := "ptops_top", category := "top", localLabels := ["pid", "ppid", "exec", "prio"],
      metrics :=
        [("tasks_cpu_percent", { kind := "gauge", unit := some "percent", aliases := ["top_cpu_percent"] }),
         ("tasks_total_cpu_seconds", { kind := "counter", unit := some "seconds", aliases := ["top_cpu_time_total_seconds"] }),
         ("tasks_user_cpu_seconds", { kind := "counter", unit := some "seconds", aliases := ["top_cpu_time_user_seconds"] }),
         ("tasks_system_cpu_seconds", { kind := "counter", unit := some "seconds", aliases := ["top_cpu_time_sys_seconds"] })],
      uniqueKey := ["ts", "bundle_id", "host", "pid"],
      indexes := [["pid", "ts DESC"], ["host", "ts DESC"]] }),
   ("SMAPS",
    { table := "ptops_smaps", category := "smaps", localLabels := ["pid", "exec"],
      metrics :=
        [("smaps_rss_kb", { kind := "gauge", unit := some "kB" }),
         ("smaps_swap_kb", { kind := "gauge", unit := some "kB" })],
      uniqueKey := ["ts", "bundle_id", "host", "pid"],
      indexes := [["pid", "ts DESC"]] }),
   ("MEM",
    { table := "ptops_mem", category := "mem", localLabels := [],
      metrics :=
        [("mem_total_memory", { kind := "gauge", unit := some "bytes" }),
         ("mem_free_percent", { kind := "gauge", unit := some "percent" }),
         ("mem_buffers_percent", { kind := "gauge", unit := some "percent" }),
         ("mem_cached_percent", { kind := "gauge", unit := some "percent" }),
         ("mem_slab_percent", { kind := "gauge", unit := some "percent" }),
         ("mem_anon_percent", { kind := "gauge", unit := some "percent" }),
         ("mem_sysv_shm_percent", { kind := "gauge", unit := some "percent" }),
         ("mem_swap_used_percent", { kind := "gauge", unit := some "percent" }),
         ("mem_swap_total_bytes", { kind := "gauge", unit := some "bytes" }),
         ("mem_hugepages_total", { kind := "gauge", unit := some "count" }),
         ("mem_hugepages_free", { kind := "gauge", unit := some "count" }),
         ("mem_available_percent", { kind := "gauge", unit := some "percent" }),
         ("mem_pgpgin_rate", { kind := "gauge", unit := some "pages_per_sec" }),
         ("mem_pgpgout_rate", { kind := "gauge", unit := some "pages_per_sec" }),
         ("mem_swapin_rate", { kind := "gauge", unit := some "pages_per_sec" }),
         ("mem_swapout_rate", { kind := "gauge", unit := some "pages_per_sec" })],
      uniqueKey := ["ts", "bundle_id", "host"],
      indexes := [["host", "ts DESC"]] }),
   ("DISK",
    { table := "ptops_disk", category := "disk", localLabels := ["device_name", "disk_index"],
      metrics :=
        [("disk_reads_per_sec", { kind := "gauge", unit := some "ops_per_sec" }),
         ("disk_writes_per_sec", { kind := "gauge", unit := some "ops_per_sec" }),
         ("disk_read_kib_per_sec", { kind := "gauge", unit := some "kib_per_sec" }),
         ("disk_write_kib_per_sec", { kind := "gauge", unit := some "kib_per_sec" }),
         ("disk_avg_queue_len", { kind := "gauge", unit := some "requests" }),
         ("disk_utilization_percent", { kind := "gauge", unit := some "percent" }),
         ("disk_device_busy_percent", { kind := "gauge", unit := some "percent" }),
         ("disk_read_avg_ms", { kind := "gauge", unit := some "milliseconds" }),
         ("disk_write_avg_ms", { kind := "gauge", unit := some "milliseconds" }),
         ("disk_read_avg_kb", { kind := "gauge", unit := some "kilobytes" }),
         ("disk_write_avg_kb", { kind := "gauge", unit := some "kilobytes" }),
         ("disk_service_time_ms", { kind := "gauge", unit := some "milliseconds" })],
      uniqueKey := ["ts", "bundle_id", "host", "device_name"],
      indexes := [["device_name", "ts DESC"], ["host", "ts DESC"]] }),
   ("NET",
    { table := "ptops_net", category := "net", localLabels := ["interface", "kind", "name_variant"],
      metrics :=
        [("net_rx_packets_per_sec", { kind := "gauge", unit := some "packets_per_sec", aliases := ["net_rk_packets_per_sec"] }),
         ("net_rx_kib_per_sec", { kind := "gauge", unit := some "kib_per_sec", aliases := ["net_rk_kib_per_sec"] }),
         ("net_tx_packets_per_sec", { kind := "gauge", unit := some "packets_per_sec", aliases := ["net_tk_packets_per_sec"] }),
         ("net_tx_kib_per_sec", { kind := "gauge", unit := some "kib_per_sec", aliases := ["net_tk_kib_per_sec"] }),
         ("net_rx_drops_per_sec", { kind := "gauge", unit := some "drops_per_sec", aliases := ["net_rd_drops_per_sec"] }),
         ("net_tx_drops_per_sec", { kind := "gauge", unit := some "drops_per_sec", aliases := ["net_td_drops_per_sec"] }),
         ("net_rx_packets_total", { kind := "counter", unit := some "packets" }),
         ("net_tx_packets_total", { kind := "counter", unit := some "packets" }),
         ("net_rx_errors_total", { kind := "counter", unit := some "errors" }),
         ("net_tx_errors_total", { kind := "counter", unit := some "errors" }),
         ("net_rx_bytes_total", { kind := "counter", unit := some "bytes" }),
         ("net_tx_bytes_total", { kind := "counter", unit := some "bytes" }),
         ("net_rx_dropped_packets_total", { kind := "counter", unit := some "packets" }),
         ("net_tx_dropped_packets_total", { kind := "counter", unit := some "packets" })],
      uniqueKey := ["ts", "bundle_id", "host", "interface", "kind", "name_variant"],
      indexes := [["interface", "ts DESC"], ["host", "ts DESC"]] }),
   ("FPPORTS",
    { table := "ptops_fpports", category := "fastpath", localLabels := ["port"],
      metrics :=
        [("fpports_ip_total", { kind := "counter", unit := some "packets" }),
         ("fpports_op_total", { kind := "counter", unit := some "packets" }),
         ("fpports_ib_total", { kind := "counter", unit := some "bytes" }),
         ("fpports_ob_total", { kind := "counter", unit := some "bytes" }),
         ("fpports_ie_total", { kind := "counter", unit := some "errors" }),
         ("fpports_oe_total", { kind := "counter", unit := some "errors" }),
         ("fpports_mc_total", { kind := "counter", unit := some "packets" }),
         ("fpports_im_total", { kind := "counter", unit := some "packets" }),
         ("fpports_in_total", { kind := "counter", unit := some "events" })],
      uniqueKey := ["ts", "bundle_id", "host", "port"],
      indexes := [["port", "ts DESC"]] }),
   ("FPMBUF",
    { table := "ptops_fpmbuf", category := "fastpath", localLabels := [],
      metrics := [("fpm_muc", { kind := "gauge", unit := some "count" })],
      uniqueKey := ["ts", "bundle_id", "host"],
      indexes := [["host", "ts DESC"]] }),
   ("TCP_DCA_STAT",
    { table := "ptops_tcp_dca_stat", category := "fastpath", localLabels := ["interface_addr"],
      metrics :=
        [("tcp_dca_interfaces", { kind := "gauge", unit := some "count" }),
         ("tcp_dca_rx_packets_total", { kind := "counter", unit := some "packets" }),
         ("tcp_dca_tx_packets_total", { kind := "counter", unit := some "packets" }),
         ("tcp_dca_dropped_packets_total", { kind := "counter", unit := some "packets" }),
         ("tcp_dca_queue_drops_total", { kind := "counter", unit := some "drops" }),
         ("tcp_dca_opened_sessions_total", { kind := "counter", unit := some "sessions" }),
         ("tcp_dca_closed_sessions_total", { kind := "counter", unit := some "sessions" }),
         ("tcp_dca_active_sessions", { kind := "gauge", unit := some "sessions" })],
      uniqueKey := ["ts", "bundle_id", "host", "interface_addr"],
      indexes := [["interface_addr", "ts DESC"]] }),
   ("FPC",
    { table := "ptops_fpc", category := "fastpath", localLabels := ["cpu"],
      metrics :=
        [("fpc_cpu_busy_percent", { kind := "gauge", unit := some "percent" }),
         ("fpc_cycles_total", { kind := "counter", unit := some "cycles" }),
         ("fpc_cycles_per_packet", { kind := "gauge", unit := some "cycles_per_packet" }),
         ("fpc_cycles_ic_pkt", { kind := "gauge", unit := some "cycles_per_packet" })],
      uniqueKey := ["ts", "bundle_id", "host", "cpu"],
      indexes := [["cpu", "ts DESC"]] }),
   ("FPP",
    { table := "ptops_fpp", category := "fastpath", localLabels := [],
      metrics :=
        [("fpp_total_cycles", { kind := "counter", unit := some "cycles" }),
         ("fpp_total_packets", { kind := "counter", unit := some "packets" }),
         ("fpp_cycles_per_packet", { kind := "gauge", unit := some "cycles_per_packet" })],
      uniqueKey := ["ts", "bundle_id", "host"],
      indexes := [["ts DESC"]] }),
   ("FPS",
    { table := "ptops_fps", category := "fastpath", localLabels := [],
      metrics :=
        [("fps_incoming_dns_packets", { kind := "counter", unit := some "packets" }),
         ("fps_outgoing_dns_packets", { kind := "counter", unit := some "packets" }),
         ("fps_dropped_dns_packets", { kind := "counter", unit := some "packets" }),
         ("fps_missed_dns_packets", { kind := "counter", unit := some "packets" }),
         ("fps_hit_dns_packets", { kind := "counter", unit := some "packets" }),
         ("fps_bypass_dns_packets", { kind := "counter", unit := some "packets" })],
      uniqueKey := ["ts", "bundle_id", "host"],
      indexes := [["ts DESC"]] }),
   ("DOT_STAT",
    { table := "ptops_dot_stat", category := "fastpath", localLabels := ["addr", "index"],
      metrics :=
        [("dot_rx_total", { kind := "counter", unit := some "packets" }),
         ("dot_tx_total", { kind := "counter", unit := some "packets" }),
         ("dot_dp_total", { kind := "counter", unit := some "packets" }),
         ("dot_qd_total", { kind := "counter", unit := some "packets" })],
      uniqueKey := ["ts", "bundle_id", "host", "addr", "index"],
      indexes := [["addr", "ts DESC"]] }),
   ("DOH_STAT",
    { table := "ptops_doh_stat", category := "fastpath", localLabels := ["addr", "index"],
      metrics :=
        [("doh_rx_total", { kind := "counter", unit := some "packets" }),
         ("doh_tx_total", { kind := "counter", unit := some "packets" }),
         ("doh_dp_total", { kind := "counter", unit := some "packets" }),
         ("doh_qd_total", { kind := "counter", unit := some "packets" })],
      uniqueKey := ["ts", "bundle_id", "host", "addr", "index"],
      indexes := [["addr", "ts DESC"]] }),
   ("FPVLSTATS",
    { table := "ptops_fpvlstats", category := "fastpath", localLabels := [],
      metrics :=
        [("fpvl_f_pending", { kind := "gauge", unit := some "count" }),
         ("fpvl_f_working", { kind := "gauge", unit := some "count" }),
         ("fpvl_f_blocked", { kind := "gauge", unit := some "count" }),
         ("fpvl_f_blocked_async", { kind := "gauge", unit := some "count" }),
         ("fpvl_n_pending", { kind := "gauge", unit := some "count" }),
         ("fpvl_n_working", { kind := "gauge", unit := some "count" }),
         ("fpvl_n_blocked", { kind := "gauge", unit := some "count" }),
         ("fpvl_n_running", { kind := "gauge", unit := some "count" }),
         ("fpvl_n_blocked_async", { kind := "gauge", unit := some "count" }),
         ("fpvl_n_dropped", { kind := "gauge", unit := some "count" }),
         ("fpvl_total_fast", { kind := "gauge", unit := some "count" }),
         ("fpvl_total_blocked", { kind := "gauge", unit := some "count" })],
      uniqueKey := ["ts", "bundle_id", "host"],
      indexes := [["host", "ts DESC"]] }),
   ("DBWR",
    { table := "ptops_dbwr", category := "db", localLabels := ["bucket"],
      metrics :=
        [("dbwr_bucket_count_total", { kind := "counter", unit := some "events" }),
         ("dbwr_bucket_avg_latency_seconds", { kind := "gauge", unit := some "seconds" })],
      uniqueKey := ["ts", "bundle_id", "host", "bucket"],
      indexes := [["bucket", "ts DESC"], ["host", "ts DESC"]] }),
   ("DBWA",
    { table := "ptops_dbwa", category := "db", localLabels := ["bucket"],
      metrics :=
        [("dbwa_bucket_count_total", { kind := "counter", unit := some "events" }),
         ("dbwa_bucket_avg_latency_seconds", { kind := "gauge", unit := some "seconds" })],
      uniqueKey := ["ts", "bundle_id", "host", "bucket"],
      indexes := [["bucket", "ts DESC"], ["host", "ts DESC"]] }),
   ("DBRD",
    { table := "ptops_dbrd", category := "db", localLabels := ["bucket"],
      metrics :=
        [("dbrd_bucket_count_total", { kind := "counter", unit := some "events" }),
         ("dbrd_bucket_avg_latency_seconds", { kind := "gauge", unit := some "seconds" })],
      uniqueKey := ["ts", "bundle_id", "host", "bucket"],
      indexes := [["bucket", "ts DESC"], ["host", "ts DESC"]] }),
   ("DBMPOOL",
    { table := "ptops_dbmpool", category := "db", localLabels := [],
      metrics :=
        [("dbmpool_total", { kind := "gauge", unit := some "mib" }),
         ("dbmpool_used", { kind := "gauge", unit := some "mib" }),
         ("dbmpool_free", { kind := "gauge", unit := some "mib" }),
         ("dbmpool_used_percent", { kind := "gauge", unit := some "percent" })],
      uniqueKey := ["ts", "bundle_id", "host"],
      indexes := [["host", "ts DESC"]] })]

/-! ## Timescale writer (`timescale/writer.py`) -/

/-- Metric scan of `_resolve_group_and_column` within one group: the
canonical-name test and the alias test, metric by metric. -/
def resolveInGroup (name : String) (grp : TableGroup) :
    Dct Metric → Option (TableGroup × String × Bool)
  | [] => none
  | (mname, meta) :: rest =>
    if name = mname then some (grp, meta.column.getD mname, false)
    else if meta.aliases.contains name then some (grp, meta.column.getD mname, true)
    else resolveInGroup name grp rest

/-- `TimescaleWriter._resolve_group_and_column`: first hit over
`SCHEMA_SPEC.values()` wins; `none` models the `(None, None, False)` return
(the sample is then dropped by `add`). -/
def resolveGroupColumn (name : String) : Option (TableGroup × String × Bool) :=
  go SCHEMA_SPEC
where
  go : Dct TableGroup → Option (TableGroup × String × Bool)
    | [] => none
    | (_, grp) :: rest =>
      match resolveInGroup name grp grp.metrics with
      | some r => some r
      | none => go rest

/-- Stand-in for
`datetime.fromtimestamp(ts_ms/1000.0, tz=utc).isoformat()`: an injective
encoding of the timestamp (the ISO rendering is injective on the millisecond
timestamps the parser produces). -/
def isoTs (ts : Int) : PyVal := .intv ts

/-- `_PendingRow`. -/
structure PendingRow : Type where
  table : String
  key : List PyVal
  values : Dct PyVal
deriving DecidableEq, Repr

/-- `dict.setdefault(k, v)`. -/
def dsetdefault {α : Type} (d : Dct α) (k : String) (v : α) : Dct α :=
  if (dget d k).isSome then d else d ++ [(k, v)]

/-- Lookup in the pending map (a dict keyed by the composite tuple). -/
def kget (p : List (List PyVal × PendingRow)) (k : List PyVal) : Option PendingRow :=
  match p with
  | [] => none
  | (k2, r) :: rest => if k2 = k then some r else kget rest k

/-- In-place update of the pending map (existing keys keep their position). -/
def kset (p : List (List PyVal × PendingRow)) (k : List PyVal) (r : PendingRow) :
    List (List PyVal × PendingRow) :=
  match p with
  | [] => [(k, r)]
  | (k2, r2) :: rest => if k2 = k then (k2, r) :: rest else (k2, r2) :: kset rest k r

/-- The writer state observable through `add`/`flush`/`stats` (connection and
timing instrumentation aside). -/
structure WState : Type where
  batchSize : Nat
  useCopy : Bool
  adaptiveEnabled : Bool
  maxBatchSize : Nat
  pending : List (List PyVal × PendingRow)
  lastKey : Option (List PyVal)
  totalRowsAdded : Nat
  totalFlushes : Nat
  totalRowsFlushed : Nat
  lastFlushRows : Nat
  adaptiveUpscales : Nat
deriving DecidableEq, Repr

/-- A freshly constructed writer (counters zero, empty pending map). -/
def writerInit (batchSize : Nat) (useCopy adaptiveEnabled : Bool) (maxBatchSize : Nat) : WState :=
  ⟨batchSize, useCopy, adaptiveEnabled, maxBatchSize, [], none, 0, 0, 0, 0, 0⟩

/-- `TimescaleWriter.flush`: counter updates, map clearing, and the adaptive
batch-growth heuristic (the DB round trip itself has no effect on this
state; a flush error is logged and swallowed). -/
def writerFlush (st : WState) : WState :=
  if st.pending.isEmpty then st
  else
    let flushed := st.totalRowsFlushed + st.pending.length
    let st := { st with totalRowsFlushed := flushed, totalFlushes := st.totalFlushes + 1,
                          pending := [], lastKey := none }
    if st.adaptiveEnabled ∧ !st.useCopy then
      let rowsThisFlush := flushed - st.lastFlushRows
      let st := { st with lastFlushRows := flushed }
      if rowsThisFlush ≥ st.batchSize ∧ st.batchSize < st.maxBatchSize then
        let newSize := min (st.batchSize * 2) st.maxBatchSize
        if newSize ≠ st.batchSize then
          { st with batchSize := newSize, adaptiveUpscales := st.adaptiveUpscales + 1 }
        else st
      else st
    else { st with lastFlushRows := flushed }

/-- The composite key of `add`:
`(grp.table, iso_ts, bundle_id, sptid, grp.category, host, *local_labels)`. -/
def writerKey (grp : TableGroup) (s : MetricSample) : List PyVal :=
  [.str grp.table, isoTs s.tsMs, pyDGet s.labels "bundle_id", pyDGet s.labels "sptid",
   .str grp.category, pyDGet s.labels "host"]
  ++ grp.localLabels.map (fun l => pyDGet s.labels l)

/-- `TimescaleWriter.add`. -/
def writerAdd (st : WState) (s : MetricSample) : WState :=
  match resolveGroupColumn s.name with
  | none => st
  | some (grp, metricColumn, isAlias) =>
    let labels := s.labels
    let key := writerKey grp s
    let st :=
      if (kget st.pending key).isNone ∧ !st.pending.isEmpty
          ∧ st.pending.length ≥ st.batchSize ∧ st.lastKey ≠ some key then
        writerFlush st
      else st
    let (st, row) :=
      match kget st.pending key with
      | some row => (st, row)
      | none =>
        let base : Dct PyVal :=
          [("ts", isoTs s.tsMs), ("bundle_id", pyDGet labels "bundle_id"),
           ("sptid", pyDGet labels "sptid"), ("metric_category", .str grp.category),
           ("host", pyDGet labels "host")]
        let base := grp.localLabels.foldl (fun b l => dset b l (pyDGet labels l)) base
        let base := grp.metrics.foldl
          (fun b (kv : String × Metric) => dsetdefault b (kv.2.column.getD kv.1) PyVal.pnone) base
        let row : PendingRow := ⟨grp.table, key, base⟩
        ({ st with pending := st.pending ++ [(key, row)],
                     totalRowsAdded := st.totalRowsAdded + 1 }, row)
    if isAlias ∧ pyDGet row.values metricColumn ≠ .pnone then
      { st with lastKey := some key }
    else
      let row2 := { row with values := dset row.values metricColumn s.value }
      { st with pending := kset st.pending key row2, lastKey := some key }

/-! ## Concrete inputs and shapes referenced by the claim theorems -/

/-- The round-trip CPU input file of the spec (one line per list entry). -/
def roundTripCpuLines : List String :=
  ["TIME 100.0 1700000000 2024-01-01 12:00:00",
   "IDENT host h1 host_id x ver 1.2",
   "CPU cpu0 u 42.5 id/io 50.0 2.0 u/s/n 30.0 10.0 0.5 irq h/s 0.1 0.1"]

/-- The labels every sample of the round-trip CPU file carries. -/
def roundTripCpuLabels : Dct PyVal :=
  [("record_type", .str "CPU"), ("cpu_id", .str "cpu0"), ("cpu", .str "cpu0"),
   ("source", .str "ptops"), ("metric_category", .str "CPU"),
   ("uptime_seconds", .str "100.0"), ("date", .str "2024-01-01"), ("time", .str "12:00:00"),
   ("host", .str "h1"), ("host_id", .str "x"), ("ptop_version", .str "1.2")]

/-- A full-form CPU line after a TIME anchor (by itself, for claim C3). -/
def cpuFullFormLines : List String :=
  ["TIME 100.0 1700000000 2024-01-01 12:00:00",
   "CPU cpu0 u 42.5 id/io 50.0 2.0 u/s/n 30.0 10.0 0.5 irq h/s 0.1 0.1"]

/-- A file whose DISK line matches `DISK_RE` but carries the two-dot token
`1.2.3` in a float group (claim C5's failing input). -/
def malformedDiskLines : List String :=
  ["TIME 0 1700000000",
   "DISK 0 sda rkxt 1.2.3 2.0 3.0 4.0 wkxt 5 6 7 8 sqb 9 10 11"]

/-- A file containing one FPP, one FPS and one FPVLSTATS record line
(claim C10), with FPP's `total_packets` equal to zero. -/
def fastpathLines : List String :=
  ["TIME 0 1700000000", "FPP 1000 0", "FPS iod 1 2 3 mhb 4 5 6",
   "FPVLSTATS F-P 1 F-W 2"]

/-- The fields dict `iter_records` builds for a NET rate line whose seven
groups parsed to `iface` and the six rates. -/
def netRateFields (iface : String) (q1 q2 q3 q4 q5 q6 : ℚ) : Dct PyVal :=
  [("interface", .str iface),
   ("rx_packets_per_sec", .num q1), ("rx_kib_per_sec", .num q2),
   ("tx_packets_per_sec", .num q3), ("tx_kib_per_sec", .num q4),
   ("rx_drops_per_sec", .num q5), ("tx_drops_per_sec", .num q6),
   ("rk_packets_per_sec", .num q1), ("rk_kib_per_sec", .num q2),
   ("tk_packets_per_sec", .num q3), ("tk_kib_per_sec", .num q4),
   ("rd_drops_per_sec", .num q5), ("td_drops_per_sec", .num q6)]

/-- `base_norm` of the NET_RATE expansion branch. -/
def netBaseNorm (iface : String) : Dct PyVal :=
  [("record_type", .str "NET"), ("interface", .str iface), ("kind", .str "rate"),
   ("source", .str "ptops"), ("metric_category", .str "NET"),
   ("name_variant", .str "normalized")]

/-- `base_legacy` of the NET_RATE expansion branch. -/
def netBaseLegacy (iface : String) : Dct PyVal :=
  [("record_type", .str "NET"), ("interface", .str iface), ("kind", .str "rate"),
   ("source", .str "ptops"), ("metric_category", .str "NET"),
   ("name_variant", .str "legacy")]

/-- The exact sample list the NET_RATE expansion emits. -/
def netRateExpected (gl : Dct PyVal) (ts : Int) (iface : String)
    (q1 q2 q3 q4 q5 q6 : ℚ) : List MetricSample :=
  [⟨"net_rx_packets_per_sec", .num q1, ts, dupdate (netBaseNorm iface) gl⟩,
   ⟨"net_rx_kib_per_sec", .num q2, ts, dupdate (netBaseNorm iface) gl⟩,
   ⟨"net_tx_packets_per_sec", .num q3, ts, dupdate (netBaseNorm iface) gl⟩,
   ⟨"net_tx_kib_per_sec", .num q4, ts, dupdate (netBaseNorm iface) gl⟩,
   ⟨"net_rx_drops_per_sec", .num q5, ts, dupdate (netBaseNorm iface) gl⟩,
   ⟨"net_tx_drops_per_sec", .num q6, ts, dupdate (netBaseNorm iface) gl⟩,
   ⟨"net_rk_packets_per_sec", .num q1, ts, dupdate (netBaseLegacy iface) gl⟩,
   ⟨"net_rk_kib_per_sec", .num q2, ts, dupdate (netBaseLegacy iface) gl⟩,
   ⟨"net_tk_packets_per_sec", .num q3, ts, dupdate (netBaseLegacy iface) gl⟩,
   ⟨"net_tk_kib_per_sec", .num q4, ts, dupdate (netBaseLegacy iface) gl⟩,
   ⟨"net_rd_drops_per_sec", .num q5, ts, dupdate (netBaseLegacy iface) gl⟩,
   ⟨"net_td_drops_per_sec", .num q6, ts, dupdate (netBaseLegacy iface) gl⟩]

/-- Safety of a metric name against the three fast-path sample families:
the character list neither starts with `fpp_`, nor `fps_`, nor `fpvl_`. -/
def fpSafeL (l : List Char) : Prop :=
  lcHasPfx ['f', 'p', 'p', '_'] l = false ∧ lcHasPfx ['f', 'p', 's', '_'] l = false ∧
  lcHasPfx ['f', 'p', 'v', 'l', '_'] l = false

def fpSafe (n : String) : Prop := fpSafeL n.data

instance (l : List Char) : Decidable (fpSafeL l) := by unfold fpSafeL; infer_instance

instance (n : String) : Decidable (fpSafe n) := by unfold fpSafe; infer_instance

/-- Timestamp embedded in a ptop log file name (pattern match plus
`strptime`), as `discover_ptop_logs` computes it. -/
def nameTs (n : String) : Option Nat :=
  match ptopLogMatch n with
  | some (d8, d4) => pyStrptimeYmdHm d8 d4
  | none => none

/-- Canonical sample used to exercise the writer: a canonical CPU metric. -/
def wCanonicalSample : MetricSample :=
  ⟨"cpu_utilization", .num (mkRat 85 2), 1700000000000,
   [("bundle_id", .str "b1"), ("host", .str "h1"), ("cpu_id", .str "cpu0")]⟩

/-- Alias sample sharing the canonical sample's logical row key. -/
def wAliasSample : MetricSample :=
  ⟨"cpu_utilization_percent", .num (mkRat 99 1), 1700000000000,
   [("bundle_id", .str "b1"), ("host", .str "h1"), ("cpu_id", .str "cpu0")]⟩

/-- Writer state holding the canonical sample's row as pending. -/
def wStateOne : WState :=
  writerAdd (writerInit 2000 false false 50000) wCanonicalSample

/-- The CPU table group (first entry of the schema spec). -/
def cpuGroup : TableGroup :=
  (dget SCHEMA_SPEC "CPU").getD ⟨"", "", [], [], [], []⟩

/-- The pending row of `wStateOne` under the shared key. -/
def wRowOne : PendingRow :=
  (kget wStateOne.pending (writerKey cpuGroup wAliasSample)).getD ⟨"", [], []⟩

/-! ## Dictionary lemmas -/

theorem dget_dset_self {α : Type} (d : Dct α) (k : String) (v : α) :
    dget (dset d k v) k = some v := by
  induction d with
  | nil => simp [dset, dget]
  | cons kv rest ih =>
    obtain ⟨k2, v2⟩ := kv
    by_cases h : k2 = k <;> simp [dset, dget, h, ih]

theorem dget_dset_ne {α : Type} (d : Dct α) (k k2 : String) (v : α) (h : k2 ≠ k) :
    dget (dset d k2 v) k = dget d k := by
  induction d with
  | nil => simp [dset, dget, h]
  | cons kv rest ih =>
    obtain ⟨k3, v3⟩ := kv
    by_cases h3 : k3 = k2
    · subst h3; simp [dset, dget, h]
    · simp [dset, dget, h3, ih]

theorem dget_mem {α : Type} {d : Dct α} {k : String} {v : α}
    (h : dget d k = some v) : (k, v) ∈ d := by
  induction d with
  | nil => simp [dget] at h
  | cons kv rest ih =>
    obtain ⟨k2, v2⟩ := kv
    by_cases h2 : k2 = k
    · subst h2; simp [dget] at h; simp [h]
    · simp [dget, h2] at h
      exact List.mem_cons_of_mem _ (ih h)

theorem dget_dupdate_right_none {α : Type} (d e : Dct α) (k : String)
    (h : dget e k = none) : dget (dupdate d e) k = dget d k := by
  induction e generalizing d with
  | nil => simp [dupdate]
  | cons kv rest ih =>
    obtain ⟨k2, v2⟩ := kv
    by_cases h2 : k2 = k
    · subst h2; simp [dget] at h
    · simp [dget, h2] at h
      have step : dupdate d ((k2, v2) :: rest) = dupdate (dset d k2 v2) rest := by
        simp [dupdate, List.foldl_cons]
      rw [step, ih _ h, dget_dset_ne _ _ _ _ h2]

theorem kget_kset_self (p : List (List PyVal × PendingRow)) (k : List PyVal) (r : PendingRow) :
    kget (kset p k r) k = some r := by
  induction p with
  | nil => simp [kset, kget]
  | cons kv rest ih =>
    obtain ⟨k2, r2⟩ := kv
    by_cases h : k2 = k <;> simp [kset, kget, h, ih]

end Ptop

/-! ## Claim theorems -/

/-- Claim C3: the spec says a full-form CPU line yields a record carrying the
utilization and all six percentages as written.  Evaluating the parser on the
full-form line shows the simplified test fallback (which precedes `CPU_RE`
and whose guard also matches full lines) intercepts it: the record carries
only `utilization = 42.5` and `idle_percent = 0.0` (not the written 50.0),
and the samples contain no iowait/user/system/nice/hardirq/softirq metrics,
although `CPU_RE` itself (second conjunct) would have captured all eight
numbers. -/
theorem cpu_full_line_preempted_by_fallback :
    Ptop.iterRecords Ptop.cpuFullFormLines
      = ([⟨"CPU", [("cpu_id", .str "cpu0"), ("utilization", .num (mkRat 85 2)),
                   ("idle_percent", .num (mkRat 0 1))], 1700000000000⟩], none)
    ∧ Ptop.cpuFullMatch "CPU cpu0 u 42.5 id/io 50.0 2.0 u/s/n 30.0 10.0 0.5 irq h/s 0.1 0.1"
      = some ("cpu0", ["42.5", "50.0", "2.0", "30.0", "10.0", "0.5", "0.1", "0.1"])
    ∧ (Ptop.iterMetricSamples none Ptop.cpuFullFormLines).1.map (fun s => (s.name, s.value))
      = [("cpu_utilization", .num (mkRat 85 2)), ("cpu_utilization_percent", .num (mkRat 85 2)),
         ("cpu_idle_percent", .num (mkRat 0 1))] := by
  refine ⟨by decide, by decide, by decide⟩

/-- Claim C4 (counterexample): calling the `load_bundle` tool without a
`categories` argument does not run under the `{CPU}` allowlist --- the tool
substitutes the full nine-category list before `_load_bundle_impl` can apply
its `{'CPU'}` default, so a MEM record is expanded into samples. -/
theorem load_bundle_default_expands_mem :
    "MEM" ∈ Ptop.loadBundleCatSet none
    ∧ Ptop.loadBundleCatSet none ≠ ["CPU"]
    ∧ (Ptop.iterMetricSamples (some (Ptop.loadBundleCatSet none))
        ["TIME 0 1700000000", "MEM t 1000 f 10 b 5 c 20 s 2 a 30 sh 1 sw 0 0"]).1 ≠ [] := by
  refine ⟨by decide, by decide, by decide⟩

/-- Claim C4 (amended): without a `categories` argument the `load_bundle`
tool passes the full nine-category list, so ingestion runs under the
all-categories allowlist; the `{CPU}` default of `_load_bundle_impl` takes
effect only when that implementation is called directly with no categories. -/
theorem load_bundle_default_categories :
    Ptop.loadBundleCatSet none
      = ["CPU", "MEM", "DISK", "NET", "TOP", "SMAPS", "DB", "FASTPATH", "OTHER"]
    ∧ Ptop.implCatSet none = ["CPU"]
    ∧ Ptop.loadBundleEffCategories none = Ptop.allCategories := by
  refine ⟨by decide, by decide, by decide⟩

/-- Claim C5: the spec says no exception escapes `iter_records` /
`iter_metric_samples` and every malformed line is skipped.  The code
violates this: a DISK line matching `DISK_RE` with the two-dot token `1.2.3`
in a `[0-9.]+` group reaches the unguarded `float()` conversion, whose
`ValueError` escapes both iterators (the error marker in the model), instead
of the line being skipped. -/
theorem iter_records_raises_on_two_dot_disk :
    Ptop.iterRecords Ptop.malformedDiskLines = ([], some "ValueError_float_disk")
    ∧ Ptop.iterMetricSamples none Ptop.malformedDiskLines
      = ([], some "ValueError_float_disk")
    ∧ Ptop.pyFloat "1.2.3" = none := by
  refine ⟨by decide, by decide, by decide⟩

/-- Claim C6: the round-trip CPU file yields `cpu_utilization = 42.5` at
`ts_ms = 1700000000000` together with the alias `cpu_utilization_percent`
at the same value and timestamp, and the labels carry
`cpu_id=cpu0, host=h1, ptop_version=1.2, record_type=CPU,
metric_category=CPU, source=ptops`. -/
theorem round_trip_cpu_samples :
    Ptop.iterMetricSamples none Ptop.roundTripCpuLines
      = ([⟨"cpu_utilization", .num (mkRat 85 2), 1700000000000, Ptop.roundTripCpuLabels⟩,
          ⟨"cpu_utilization_percent", .num (mkRat 85 2), 1700000000000, Ptop.roundTripCpuLabels⟩,
          ⟨"cpu_idle_percent", .num (mkRat 0 1), 1700000000000, Ptop.roundTripCpuLabels⟩], none)
    ∧ Ptop.dget Ptop.roundTripCpuLabels "cpu_id" = some (.str "cpu0")
    ∧ Ptop.dget Ptop.roundTripCpuLabels "host" = some (.str "h1")
    ∧ Ptop.dget Ptop.roundTripCpuLabels "ptop_version" = some (.str "1.2")
    ∧ Ptop.dget Ptop.roundTripCpuLabels "record_type" = some (.str "CPU")
    ∧ Ptop.dget Ptop.roundTripCpuLabels "metric_category" = some (.str "CPU")
    ∧ Ptop.dget Ptop.roundTripCpuLabels "source" = some (.str "ptops") := by
  refine ⟨by decide, by decide, by decide, by decide, by decide, by decide, by decide⟩

/-- Claim C2 (counterexample): the claim says any statement still containing
`;` after trimming one trailing `;` is rejected.  The gateway instead strips
every trailing semicolon (`q.rstrip(';')`), so `select 1;;` --- which after
trimming one `;` still contains a `;` (second conjunct) --- is accepted and
wrapped rather than rejected. -/
theorem sql_gate_double_semicolon_accepted :
    Ptop.timescaleSqlGate "select 1;;" 500
      = .run "WITH _q AS (select 1) SELECT * FROM _q LIMIT 500" true
    ∧ Ptop.pyContains "select 1;" ";" = true := by
  refine ⟨by decide, by decide⟩

/-- Claim C8 (counterexample): with four well-formed log files and
`max_files = 2` the selected set is the two newest in chronological order,
but the count warning is `selected_2_of_2_candidates_requested_2` --- the
code truncates the candidate list before formatting the warning, so the
claimed `selected_2_of_4_candidates_requested_2` never appears. -/
theorem discover_warning_count_mismatch :
    Ptop.discoverPtopLogs
      ["ptop-20250101_1200.log", "ptop-20250102_1200.log",
       "ptop-20250103_1200.log", "ptop-20250104_1200.log"] 2
    = (["ptop-20250103_1200.log", "ptop-20250104_1200.log"],
       ["max_files_truncated", "selected_2_of_2_candidates_requested_2"])
    ∧ "selected_2_of_4_candidates_requested_2"
        ∉ (Ptop.discoverPtopLogs
            ["ptop-20250101_1200.log", "ptop-20250102_1200.log",
             "ptop-20250103_1200.log", "ptop-20250104_1200.log"] 2).2 := by
  refine ⟨by decide, by decide⟩

/-- Claim C9 (counterexample): the claim says every member whose name
contains `..` is skipped; the filter actually rejects only a whole `..`
*path segment*, so the name `a..b` --- which contains `..` --- is extracted. -/
theorem dotdot_substring_member_extracted :
    Ptop.pyContains "a..b" ".." = true
    ∧ Ptop.extractedMembers ["a..b"] = ["a..b"] := by
  refine ⟨by decide, by decide⟩

/-! ## Fast-path name-safety lemmas (for claim C10) -/

open Ptop

theorem fpSafeL_cons_ne {c : Char} (cs : List Char) (h : c ≠ 'f') : Ptop.fpSafeL (c :: cs) := by
  have hb : ('f' == c) = false := beq_eq_false_iff_ne.mpr (Ne.symm h)
  refine ⟨?_, ?_, ?_⟩ <;> simp [lcHasPfx, hb]

theorem fpSafeL_fpports (tail : List Char) : Ptop.fpSafeL ('f' :: 'p' :: 'p' :: 'o' :: tail) :=
  ⟨rfl, rfl, rfl⟩

theorem fpSafeL_fpm (tail : List Char) : Ptop.fpSafeL ('f' :: 'p' :: 'm' :: tail) :=
  ⟨rfl, rfl, rfl⟩

theorem fpSafe_of_head_ne {n : String} {c : Char} {cs : List Char}
    (hd : n.data = c :: cs) (h : c ≠ 'f') : Ptop.fpSafe n := by
  unfold Ptop.fpSafe; rw [hd]; exact fpSafeL_cons_ne cs h

theorem fpSafe_append2_of_head_ne (s k t : String) (c : Char) (cs : List Char)
    (hs : s.data = c :: cs) (h : c ≠ 'f') : Ptop.fpSafe (s ++ k ++ t) :=
  fpSafe_of_head_ne (by rw [String.data_append, String.data_append, hs]; rfl) h

theorem fpSafe_append_of_head_ne (s k : String) (c : Char) (cs : List Char)
    (hs : s.data = c :: cs) (h : c ≠ 'f') : Ptop.fpSafe (s ++ k) :=
  fpSafe_of_head_ne (by rw [String.data_append, hs]; rfl) h

theorem fpSafe_fpports (k : String) : Ptop.fpSafe ("fpports_" ++ k ++ "_total") := by
  unfold Ptop.fpSafe
  rw [String.data_append, String.data_append]
  exact fpSafeL_fpports _

theorem fpSafe_fpm (k : String) : Ptop.fpSafe ("fpm_" ++ k) := by
  unfold Ptop.fpSafe
  rw [String.data_append]
  exact fpSafeL_fpm _

theorem cpuMetric_safe (k : String) : Ptop.fpSafe (Ptop.cpuMetric k) := by
  cases hd : dget cpuMetricMapping k with
  | none =>
    have he : Ptop.cpuMetric k = "cpu_" ++ k := by unfold Ptop.cpuMetric; rw [hd]
    rw [he]
    exact fpSafe_append_of_head_ne "cpu_" k 'c' _ rfl (by decide)
  | some n =>
    have he : Ptop.cpuMetric k = n := by unfold Ptop.cpuMetric; rw [hd]
    rw [he]
    have hall : ∀ p ∈ Ptop.cpuMetricMapping, Ptop.fpSafe (Prod.snd p) := by decide
    exact hall (k, n) (Ptop.dget_mem hd)

theorem cpuLoop_safe (base gl : Dct PyVal) (ts : Int) :
    ∀ fs s, s ∈ (Ptop.cpuLoop base gl ts fs).1 → Ptop.fpSafe s.name := by
  intro fs
  induction fs with
  | nil => intro s hs; simp [Ptop.cpuLoop] at hs
  | cons kv rest ih =>
    intro s hs
    obtain ⟨k, v⟩ := kv
    simp only [Ptop.cpuLoop] at hs
    by_cases hk : k = "cpu_id"
    · rw [if_pos hk] at hs; exact ih s hs
    · rw [if_neg hk] at hs
      cases hfv : fvalToFloat v with
      | none => simp only [hfv] at hs; simp at hs
      | some q =>
        simp only [hfv] at hs
        cases hs with
        | head => exact cpuMetric_safe k
        | tail b hs =>
          by_cases hu : Ptop.cpuMetric k = "cpu_utilization"
          · rw [if_pos hu] at hs
            cases hs with
            | head => exact (by decide : Ptop.fpSafe "cpu_utilization_percent")
            | tail b2 hs => exact ih s hs
          · rw [if_neg hu] at hs
            exact ih s hs

theorem fieldsLoop_safe (pre suf : String) (skipKeys : List String) (labels : Dct PyVal)
    (ts : Int) (hsafe : ∀ k : String, Ptop.fpSafe (pre ++ k ++ suf)) :
    ∀ fs s, s ∈ (Ptop.fieldsLoop pre suf skipKeys labels ts fs).1 → Ptop.fpSafe s.name := by
  intro fs
  induction fs with
  | nil => intro s hs; simp [Ptop.fieldsLoop] at hs
  | cons kv rest ih =>
    intro s hs
    obtain ⟨k, v⟩ := kv
    simp only [Ptop.fieldsLoop] at hs
    by_cases hk : skipKeys.contains k
    · rw [if_pos hk] at hs; exact ih s hs
    · rw [if_neg hk] at hs
      cases hfv : fvalToFloat v with
      | none => simp only [hfv] at hs; simp at hs
      | some q =>
        simp only [hfv] at hs
        cases hs with
        | head => exact hsafe k
        | tail b hs => exact ih s hs

theorem netKeysLoop_safe (labels : Dct PyVal) (ts : Int) (fields : Dct PyVal) :
    ∀ keys s, s ∈ (Ptop.netKeysLoop labels ts fields keys).1 → Ptop.fpSafe s.name := by
  intro keys
  induction keys with
  | nil => intro s hs; simp [Ptop.netKeysLoop] at hs
  | cons k rest ih =>
    intro s hs
    simp only [Ptop.netKeysLoop] at hs
    cases hdk : dget fields k with
    | none => simp only [hdk] at hs; exact ih s hs
    | some v =>
      simp only [hdk] at hs
      cases hfv : fvalToFloat v with
      | none => simp only [hfv] at hs; simp at hs
      | some q =>
        simp only [hfv] at hs
        cases hs with
        | head => exact fpSafe_append_of_head_ne "net_" k 'n' _ rfl (by decide)
        | tail b hs => exact ih s hs

theorem tcpLoop_safe (merged : Dct PyVal) (ts : Int) (fields : Dct PyVal) :
    ∀ maps, (∀ p ∈ maps, Ptop.fpSafe (Prod.snd p)) →
      ∀ s, s ∈ (Ptop.tcpLoop merged ts fields maps).1 → Ptop.fpSafe s.name := by
  intro maps
  induction maps with
  | nil => intro _ s hs; simp [Ptop.tcpLoop] at hs
  | cons kn rest ih =>
    intro hmaps s hs
    obtain ⟨k, name⟩ := kn
    simp only [Ptop.tcpLoop] at hs
    cases hdk : dget fields k with
    | none =>
      simp only [hdk] at hs
      exact ih (fun p hp => hmaps p (List.mem_cons_of_mem _ hp)) s hs
    | some v =>
      simp only [hdk] at hs
      cases hfv : fvalToFloat v with
      | none => simp only [hfv] at hs; simp at hs
      | some q =>
        simp only [hfv] at hs
        cases hs with
        | head => exact hmaps (k, name) (List.mem_cons_self _ _)
        | tail b hs => exact ih (fun p hp => hmaps p (List.mem_cons_of_mem _ hp)) s hs

theorem dbBucketLoop_names (pfx which : String) (gl : Dct PyVal) (ts : Int) :
    ∀ l s, s ∈ Ptop.dbBucketLoop pfx which gl ts l →
      s.name = which ++ "_bucket_count_total" ∨ s.name = which ++ "_bucket_avg_latency_seconds" := by
  intro l
  induction l with
  | nil => intro s hs; simp [Ptop.dbBucketLoop] at hs
  | cons b rest ih =>
    intro s hs
    obtain ⟨bk, c, lat⟩ := b
    simp only [Ptop.dbBucketLoop] at hs
    cases hs with
    | head => left; rfl
    | tail b hs =>
      cases hs with
      | head => right; rfl
      | tail b2 hs => exact ih s hs

theorem expandCPU_safe (gl : Dct PyVal) (r : PRecord) :
    ∀ s ∈ (Ptop.expandCPU gl r).1, Ptop.fpSafe s.name := by
  intro s hs
  unfold Ptop.expandCPU at hs
  cases hcid : dget r.fields "cpu_id" with
  | none => simp only [hcid] at hs; simp at hs
  | some cid =>
    simp only [hcid] at hs
    exact cpuLoop_safe _ gl r.tsMs r.fields s hs

theorem expandMEM_safe (gl : Dct PyVal) (r : PRecord) :
    ∀ s ∈ (Ptop.expandMEM gl r).1, Ptop.fpSafe s.name := by
  intro s hs
  exact fieldsLoop_safe _ _ _ _ _
    (fun k => fpSafe_append2_of_head_ne "mem_" k "" 'm' _ rfl (by decide)) _ s hs

theorem expandDISK_safe (gl : Dct PyVal) (r : PRecord) :
    ∀ s ∈ (Ptop.expandDISK gl r).1, Ptop.fpSafe s.name := by
  intro s hs
  unfold Ptop.expandDISK at hs
  cases hdev : dget r.fields "device_name" with
  | none => simp only [hdev] at hs; simp at hs
  | some dev =>
    simp only [hdev] at hs
    exact fieldsLoop_safe _ _ _ _ _
      (fun k => fpSafe_append2_of_head_ne "disk_" k "" 'd' _ rfl (by decide)) _ s hs

theorem expandNETRATE_safe (gl : Dct PyVal) (r : PRecord) :
    ∀ s ∈ (Ptop.expandNETRATE gl r).1, Ptop.fpSafe s.name := by
  intro s hs
  unfold Ptop.expandNETRATE at hs
  cases hif : dget r.fields "interface" with
  | none => simp only [hif] at hs; simp at hs
  | some iface =>
    simp only [hif] at hs
    cases he : (Ptop.netKeysLoop
        (dupdate [("record_type", .str "NET"), ("interface", iface), ("kind", .str "rate"),
          ("source", .str "ptops"), ("metric_category", .str (Ptop.metricCategory r.pfx)),
          ("name_variant", .str "normalized")] gl) r.tsMs r.fields Ptop.normalizedNetKeys).2 with
    | some e =>
      simp only [he] at hs
      exact netKeysLoop_safe _ _ _ _ s hs
    | none =>
      simp only [he] at hs
      rcases List.mem_append.mp hs with hs | hs
      · exact netKeysLoop_safe _ _ _ _ s hs
      · exact netKeysLoop_safe _ _ _ _ s hs

theorem expandNETIF_safe (gl : Dct PyVal) (r : PRecord) :
    ∀ s ∈ (Ptop.expandNETIF gl r).1, Ptop.fpSafe s.name := by
  intro s hs
  unfold Ptop.expandNETIF at hs
  cases hif : dget r.fields "interface" with
  | none => simp only [hif] at hs; simp at hs
  | some iface =>
    simp only [hif] at hs
    exact fieldsLoop_safe _ _ _ _ _
      (fun k => fpSafe_append2_of_head_ne "net_" k "" 'n' _ rfl (by decide)) _ s hs

theorem expandTOP_safe (gl : Dct PyVal) (r : PRecord) :
    ∀ s ∈ (Ptop.expandTOP gl r).1, Ptop.fpSafe s.name := by
  intro s hs
  unfold Ptop.expandTOP at hs
  cases hp : dget r.fields "pid" with
  | none => simp only [hp] at hs; simp at hs
  | some pid =>
    cases hpp : dget r.fields "ppid" with
    | none => simp only [hp, hpp] at hs; simp at hs
    | some ppid =>
      simp only [hp, hpp] at hs
      cases hcp : dget r.fields "cpu_percent" with
      | none => simp only [hcp] at hs; simp at hs
      | some cp =>
        simp only [hcp] at hs
        simp only [List.mem_append] at hs
        have lit : ∀ nm : String,
            nm = "tasks_cpu_percent" ∨ nm = "top_cpu_percent"
            ∨ nm = "tasks_total_cpu_seconds" ∨ nm = "top_cpu_time_total_seconds"
            ∨ nm = "tasks_user_cpu_seconds" ∨ nm = "top_cpu_time_user_seconds"
            ∨ nm = "tasks_system_cpu_seconds" ∨ nm = "top_cpu_time_sys_seconds"
            → Ptop.fpSafe nm := by
          rintro nm (rfl | rfl | rfl | rfl | rfl | rfl | rfl | rfl) <;> decide
        rcases hs with ((hs | hs) | hs) | hs
        · cases hs with
          | head => exact lit _ (by tauto)
          | tail b hs =>
            cases hs with
            | head => exact lit _ (by tauto)
            | tail b2 hs => cases hs
        · cases hts : dget r.fields "total_cpu_seconds" with
          | none => rw [hts] at hs; cases hs
          | some v =>
            rw [hts] at hs
            cases hs with
            | head => exact lit _ (by tauto)
            | tail b hs =>
              cases hs with
              | head => exact lit _ (by tauto)
              | tail b2 hs => cases hs
        · cases hus : dget r.fields "user_cpu_seconds" with
          | none => rw [hus] at hs; cases hs
          | some v =>
            rw [hus] at hs
            cases hs with
            | head => exact lit _ (by tauto)
            | tail b hs =>
              cases hs with
              | head => exact lit _ (by tauto)
              | tail b2 hs => cases hs
        · cases hsy : dget r.fields "system_cpu_seconds" with
          | none => rw [hsy] at hs; cases hs
          | some v =>
            rw [hsy] at hs
            cases hs with
            | head => exact lit _ (by tauto)
            | tail b hs =>
              cases hs with
              | head => exact lit _ (by tauto)
              | tail b2 hs => cases hs

theorem expandSMAPS_safe (gl : Dct PyVal) (r : PRecord) :
    ∀ s ∈ (Ptop.expandSMAPS gl r).1, Ptop.fpSafe s.name := by
  intro s hs
  unfold Ptop.expandSMAPS at hs
  cases hp : dget r.fields "pid" with
  | none => simp only [hp] at hs; simp at hs
  | some pid =>
    simp only [hp] at hs
    cases hr : dget r.fields "rss_kib" with
    | none => simp only [hr] at hs; simp at hs
    | some rss =>
      cases hw : dget r.fields "swap_kib" with
      | none => simp only [hr, hw] at hs; simp at hs
      | some swap =>
        simp only [hr, hw] at hs
        cases hs with
        | head => exact (by decide : Ptop.fpSafe "smaps_rss_kb")
        | tail b hs =>
          cases hs with
          | head => exact (by decide : Ptop.fpSafe "smaps_swap_kb")
          | tail b2 hs => cases hs

theorem expandDB_safe (gl : Dct PyVal) (r : PRecord)
    (hp : r.pfx = "DBWR" ∨ r.pfx = "DBWA" ∨ r.pfx = "DBRD") :
    ∀ s ∈ (Ptop.expandDB gl r).1, Ptop.fpSafe s.name := by
  intro s hs
  unfold Ptop.expandDB at hs
  cases hb : dget r.fields "buckets" with
  | none => simp only [hb] at hs; simp at hs
  | some v =>
    cases v with
    | buckets l =>
      simp only [hb] at hs
      have hnm := dbBucketLoop_names r.pfx (pyLower r.pfx) gl r.tsMs l s hs
      rcases hp with hd | hd | hd <;> rw [hd] at hnm <;>
        rcases hnm with hn | hn <;> rw [hn] <;> decide
    | pnone => simp only [hb] at hs; simp at hs
    | str a => simp only [hb] at hs; simp at hs
    | num q => simp only [hb] at hs; simp at hs
    | intv n => simp only [hb] at hs; simp at hs

theorem expandDBMPOOL_safe (gl : Dct PyVal) (r : PRecord) :
    ∀ s ∈ (Ptop.expandDBMPOOL gl r).1, Ptop.fpSafe s.name := by
  intro s hs
  exact fieldsLoop_safe _ _ _ _ _
    (fun k => fpSafe_append2_of_head_ne "dbmpool_" k "" 'd' _ rfl (by decide)) _ s hs

theorem expandFPPORTS_safe (gl : Dct PyVal) (r : PRecord) :
    ∀ s ∈ (Ptop.expandFPPORTS gl r).1, Ptop.fpSafe s.name := by
  intro s hs
  unfold Ptop.expandFPPORTS at hs
  cases hp : dget r.fields "port" with
  | none => simp only [hp] at hs; simp at hs
  | some port =>
    simp only [hp] at hs
    exact fieldsLoop_safe _ _ _ _ _ (fun k => fpSafe_fpports k) _ s hs

theorem expandFPMBUF_safe (gl : Dct PyVal) (r : PRecord) :
    ∀ s ∈ (Ptop.expandFPMBUF gl r).1, Ptop.fpSafe s.name := by
  intro s hs
  refine fieldsLoop_safe _ _ _ _ _ (fun k => ?_) _ s hs
  have h : ("fpm_" ++ k ++ "" : String) = "fpm_" ++ k := by
    rw [String.append_empty]
  rw [h]
  exact fpSafe_fpm k

theorem expandDOT_safe (gl : Dct PyVal) (r : PRecord) :
    ∀ s ∈ (Ptop.expandDOT gl r).1, Ptop.fpSafe s.name := by
  intro s hs
  unfold Ptop.expandDOT at hs
  cases ha : dget r.fields "addr" with
  | none => simp only [ha] at hs; simp at hs
  | some addr =>
    simp only [ha] at hs
    by_cases hd : r.pfx = "DOT_STAT"
    · rw [if_pos hd] at hs
      exact fieldsLoop_safe _ _ _ _ _
        (fun k => fpSafe_append2_of_head_ne "dot_" k "_total" 'd' _ rfl (by decide)) _ s hs
    · rw [if_neg hd] at hs
      exact fieldsLoop_safe _ _ _ _ _
        (fun k => fpSafe_append2_of_head_ne "doh_" k "_total" 'd' _ rfl (by decide)) _ s hs

theorem expandTCP_safe (gl : Dct PyVal) (r : PRecord) :
    ∀ s ∈ (Ptop.expandTCP gl r).1, Ptop.fpSafe s.name := by
  intro s hs
  unfold Ptop.expandTCP at hs
  have hmaps : ∀ p ∈ Ptop.tcpMetricMapping, Ptop.fpSafe (Prod.snd p) := by decide
  cases hic : dget r.fields "iface_count" with
  | none =>
    simp only [hic] at hs
    rcases List.mem_append.mp hs with hs | hs
    · cases hs
    · exact tcpLoop_safe _ _ _ _ hmaps s hs
  | some v =>
    cases hfv : fvalToFloat v with
    | none => simp only [hic, hfv] at hs; simp at hs
    | some q =>
      simp only [hic, hfv] at hs
      rcases List.mem_append.mp hs with hs | hs
      · cases hs with
        | head => exact (by decide : Ptop.fpSafe "tcp_dca_interfaces")
        | tail b hs => cases hs
      · exact tcpLoop_safe _ _ _ _ hmaps s hs

theorem expandFPC_safe (gl : Dct PyVal) (r : PRecord) :
    ∀ s ∈ (Ptop.expandFPC gl r).1, Ptop.fpSafe s.name := by
  intro s hs
  unfold Ptop.expandFPC at hs
  cases hc : dget r.fields "cpu" with
  | none => simp only [hc] at hs; simp at hs
  | some cpu =>
    simp only [hc] at hs
    cases h1 : dget r.fields "busy_percent" with
    | none => simp only [h1] at hs; simp at hs
    | some b =>
      cases h2 : dget r.fields "cycles_total" with
      | none => simp only [h1, h2] at hs; simp at hs
      | some cy =>
        cases h3 : dget r.fields "cycles_per_packet" with
        | none => simp only [h1, h2, h3] at hs; simp at hs
        | some cpp =>
          cases h4 : dget r.fields "cycles_ic_pkt" with
          | none => simp only [h1, h2, h3, h4] at hs; simp at hs
          | some cic =>
            simp only [h1, h2, h3, h4] at hs
            cases hs with
            | head => exact (by decide : Ptop.fpSafe "fpc_cpu_busy_percent")
            | tail b1 hs =>
              cases hs with
              | head => exact (by decide : Ptop.fpSafe "fpc_cycles_total")
              | tail b2 hs =>
                cases hs with
                | head => exact (by decide : Ptop.fpSafe "fpc_cycles_per_packet")
                | tail b3 hs =>
                  cases hs with
                  | head => exact (by decide : Ptop.fpSafe "fpc_cycles_ic_pkt")
                  | tail b4 hs => cases hs

theorem expandRecord_safe (gl : Dct PyVal) (r : PRecord) :
    ∀ s ∈ (Ptop.expandRecord gl r).1, Ptop.fpSafe s.name := by
  intro s hs
  unfold Ptop.expandRecord at hs
  by_cases h1 : r.pfx = "CPU"
  · rw [if_pos h1] at hs; exact expandCPU_safe gl r s hs
  rw [if_neg h1] at hs
  by_cases h2 : r.pfx = "MEM"
  · rw [if_pos h2] at hs; exact expandMEM_safe gl r s hs
  rw [if_neg h2] at hs
  by_cases h3 : r.pfx = "DISK"
  · rw [if_pos h3] at hs; exact expandDISK_safe gl r s hs
  rw [if_neg h3] at hs
  by_cases h4 : r.pfx = "NET_RATE"
  · rw [if_pos h4] at hs; exact expandNETRATE_safe gl r s hs
  rw [if_neg h4] at hs
  by_cases h5 : r.pfx = "NET_IF"
  · rw [if_pos h5] at hs; exact expandNETIF_safe gl r s hs
  rw [if_neg h5] at hs
  by_cases h6 : r.pfx = "TOP"
  · rw [if_pos h6] at hs; exact expandTOP_safe gl r s hs
  rw [if_neg h6] at hs
  by_cases h7 : r.pfx = "SMAPS"
  · rw [if_pos h7] at hs; exact expandSMAPS_safe gl r s hs
  rw [if_neg h7] at hs
  by_cases h8 : r.pfx = "DBWR" ∨ r.pfx = "DBWA" ∨ r.pfx = "DBRD"
  · rw [if_pos h8] at hs; exact expandDB_safe gl r h8 s hs
  rw [if_neg h8] at hs
  by_cases h9 : r.pfx = "DBMPOOL"
  · rw [if_pos h9] at hs; exact expandDBMPOOL_safe gl r s hs
  rw [if_neg h9] at hs
  by_cases h10 : r.pfx = "FPPORTS"
  · rw [if_pos h10] at hs; exact expandFPPORTS_safe gl r s hs
  rw [if_neg h10] at hs
  by_cases h11 : r.pfx = "FPMBUF"
  · rw [if_pos h11] at hs; exact expandFPMBUF_safe gl r s hs
  rw [if_neg h11] at hs
  by_cases h12 : r.pfx = "DOT_STAT" ∨ r.pfx = "DOH_STAT"
  · rw [if_pos h12] at hs; exact expandDOT_safe gl r s hs
  rw [if_neg h12] at hs
  by_cases h13 : r.pfx = "TCP_DCA_STAT"
  · rw [if_pos h13] at hs; exact expandTCP_safe gl r s hs
  rw [if_neg h13] at hs
  by_cases h14 : r.pfx = "FPC"
  · rw [if_pos h14] at hs; exact expandFPC_safe gl r s hs
  rw [if_neg h14] at hs
  simp at hs

/-- C10: for every log file, `iter_metric_samples` never yields a sample
derived from FPP, FPS or FPVLSTATS records.  Part 1: `iter_records` does
produce these records on a file holding one line of each — including FPP's
computed `cycles_per_packet`, which is 0 because `total_packets` is 0.
Part 2: on that same file the sample pass emits nothing.  Part 3: the schema
spec nevertheless declares table groups keyed FPP, FPS and FPVLSTATS.
Part 4: the expansion pass has no branch for these prefixes, so no sample
whose name starts with fpp_, fps_ or fpvl_ is ever emitted, for any record
and any global labels. -/
theorem fastpath_records_have_no_samples :
    (Ptop.iterRecords Ptop.fastpathLines =
      ([⟨"FPP", [("total_cycles", .num (mkRat 1000 1)), ("total_packets", .num (mkRat 0 1)),
                 ("cycles_per_packet", .num (mkRat 0 1))], 1700000000000⟩,
        ⟨"FPS", [("incoming_dns_packets", .num (mkRat 1 1)),
                 ("outgoing_dns_packets", .num (mkRat 2 1)),
                 ("dropped_dns_packets", .num (mkRat 3 1)),
                 ("missed_dns_packets", .num (mkRat 4 1)),
                 ("hit_dns_packets", .num (mkRat 5 1)),
                 ("bypass_dns_packets", .num (mkRat 6 1))], 1700000000000⟩,
        ⟨"FPVLSTATS", [("fpvl_f_pending", .num (mkRat 1 1)),
                       ("fpvl_f_working", .num (mkRat 2 1))], 1700000000000⟩], none)) ∧
    Ptop.iterMetricSamples none Ptop.fastpathLines = ([], none) ∧
    ((Ptop.dget Ptop.SCHEMA_SPEC "FPP").isSome ∧
     (Ptop.dget Ptop.SCHEMA_SPEC "FPS").isSome ∧
     (Ptop.dget Ptop.SCHEMA_SPEC "FPVLSTATS").isSome) ∧
    (∀ (gl : Ptop.Dct Ptop.PyVal) (r : Ptop.PRecord),
      ∀ s ∈ (Ptop.expandRecord gl r).1, Ptop.fpSafe s.name) := by
  refine ⟨by decide, by decide, by decide, ?_⟩
  intro gl r s hs
  exact expandRecord_safe gl r s hs

/-- Witness for C10: the universally quantified part applied at a concrete
record whose expansion is nonempty. -/
theorem fastpath_records_have_no_samples_witness :
    Ptop.fpSafe (Ptop.MetricSample.name
      ⟨"mem_x", Ptop.PyVal.num (mkRat 1 1), 0,
       [("record_type", Ptop.PyVal.str "MEM"), ("source", Ptop.PyVal.str "ptops"),
        ("metric_category", Ptop.PyVal.str "MEM")]⟩) :=
  fastpath_records_have_no_samples.2.2.2 []
    ⟨"MEM", [("x", Ptop.PyVal.num (mkRat 1 1))], 0⟩
    ⟨"mem_x", Ptop.PyVal.num (mkRat 1 1), 0,
     [("record_type", Ptop.PyVal.str "MEM"), ("source", Ptop.PyVal.str "ptops"),
      ("metric_category", Ptop.PyVal.str "MEM")]⟩ (by decide)

/-- C1: when a sample's composite key already has a pending row, `add`
updates that same row: a canonical (non-alias) name sets the resolved
column to the sample's value unconditionally; an alias name sets the column
only when it currently holds null, and leaves the row completely unchanged
when the column is already non-null (first canonical or first alias wins). -/
theorem writer_alias_first_wins (st : Ptop.WState) (s : Ptop.MetricSample)
    (grp : Ptop.TableGroup) (col : String) (isAlias : Bool) (row : Ptop.PendingRow)
    (hres : Ptop.resolveGroupColumn s.name = some (grp, col, isAlias))
    (hpend : Ptop.kget st.pending (Ptop.writerKey grp s) = some row) :
    ∃ row2 : Ptop.PendingRow,
      Ptop.kget (Ptop.writerAdd st s).pending (Ptop.writerKey grp s) = some row2 ∧
      (isAlias = false → Ptop.pyDGet row2.values col = s.value) ∧
      (isAlias = true → Ptop.pyDGet row.values col = Ptop.PyVal.pnone →
        Ptop.pyDGet row2.values col = s.value) ∧
      (isAlias = true → Ptop.pyDGet row.values col ≠ Ptop.PyVal.pnone → row2 = row) := by
  have hset : Ptop.pyDGet (Ptop.dset row.values col s.value) col = s.value := by
    unfold Ptop.pyDGet
    rw [dget_dset_self]
    rfl
  unfold Ptop.writerAdd
  simp only [hres, hpend, Option.isNone_some, Bool.false_eq_true, false_and, if_false]
  by_cases ha : isAlias = true
  · by_cases hv : Ptop.pyDGet row.values col = Ptop.PyVal.pnone
    · rw [if_neg (by simp [hv])]
      refine ⟨_, kget_kset_self _ _ _, ?_, fun _ _ => hset, ?_⟩
      · intro hf; rw [hf] at ha; cases ha
      · intro _ hne; exact absurd hv hne
    · rw [if_pos ⟨ha, hv⟩]
      refine ⟨row, hpend, ?_, ?_, fun _ _ => rfl⟩
      · intro hf; rw [hf] at ha; cases ha
      · intro _ hp; exact absurd hp hv
  · rw [if_neg (by simp [ha])]
    refine ⟨_, kget_kset_self _ _ _, fun _ => hset, ?_, ?_⟩
    · intro h1; exact absurd h1 ha
    · intro h1; exact absurd h1 ha

/-- Witness for C1: the theorem applied to a writer already holding a
pending CPU row and an alias sample for the same key. -/
theorem writer_alias_first_wins_witness :
    ∃ row2 : Ptop.PendingRow,
      Ptop.kget (Ptop.writerAdd Ptop.wStateOne Ptop.wAliasSample).pending
        (Ptop.writerKey Ptop.cpuGroup Ptop.wAliasSample) = some row2 ∧
      (true = false → Ptop.pyDGet row2.values "cpu_utilization" = Ptop.wAliasSample.value) ∧
      (true = true → Ptop.pyDGet Ptop.wRowOne.values "cpu_utilization" = Ptop.PyVal.pnone →
        Ptop.pyDGet row2.values "cpu_utilization" = Ptop.wAliasSample.value) ∧
      (true = true → Ptop.pyDGet Ptop.wRowOne.values "cpu_utilization" ≠ Ptop.PyVal.pnone →
        row2 = Ptop.wRowOne) :=
  writer_alias_first_wins Ptop.wStateOne Ptop.wAliasSample Ptop.cpuGroup
    "cpu_utilization" true Ptop.wRowOne (by decide) (by decide)

/-- C2 (amended): the gateway rejects, without executing anything, every
query whose first keyword after comment stripping is neither select nor
with, and every query that still contains a semicolon after trimming ALL
trailing semicolons; an accepted query is auto-limited exactly when the
lowered original text lacks the substring " limit ", in which case it is
wrapped as WITH _q AS (<core>) SELECT * FROM _q LIMIT max_rows (otherwise
it runs as the trimmed core); the truncated flag is true iff the auto-limit
was applied and the row count equals max_rows. -/
theorem sql_gate_validation :
    (∀ (sql : String) (maxRows : Int) (kw : String),
      Ptop.firstKeyword (Ptop.stripLineComments
        (Ptop.stripBlockComments (Ptop.pyStrip sql).data)) = some kw →
      Ptop.pyLower kw ≠ "select" → Ptop.pyLower kw ≠ "with" →
      ∃ c, Ptop.timescaleSqlGate sql maxRows = .fail c) ∧
    (∀ (sql : String) (maxRows : Int),
      Ptop.pyContains (Ptop.pyRstripChar (Ptop.pyStrip sql) ';') ";" = true →
      ∃ c, Ptop.timescaleSqlGate sql maxRows = .fail c) ∧
    (∀ (sql : String) (maxRows : Int) (wrapped : String) (al : Bool),
      Ptop.timescaleSqlGate sql maxRows = .run wrapped al →
      al = !Ptop.pyContains (Ptop.pyLower sql) " limit " ∧
      (al = true → wrapped = "WITH _q AS (" ++ Ptop.pyRstripChar (Ptop.pyStrip sql) ';'
          ++ ") SELECT * FROM _q LIMIT " ++ toString maxRows) ∧
      (al = false → wrapped = Ptop.pyRstripChar (Ptop.pyStrip sql) ';')) ∧
    (∀ (al : Bool) (rc mr : Int),
      Ptop.truncatedFlag al rc mr = true ↔ (al = true ∧ rc = mr)) := by
  refine ⟨?_, ?_, ?_, ?_⟩
  · intro sql maxRows kw hkw hs hw
    simp only [Ptop.timescaleSqlGate]
    by_cases hq : Ptop.pyStrip sql = ""
    · rw [if_pos hq]; exact ⟨"empty_query", rfl⟩
    · rw [if_neg hq]
      simp only [hkw]
      by_cases hd : Ptop.disallowedKeywords.contains (Ptop.pyLower kw) = true
      · rw [if_pos hd]; exact ⟨"only_select_allowed", rfl⟩
      · rw [if_neg hd]
        rw [if_pos ⟨hs, hw⟩]
        exact ⟨"only_select_allowed", rfl⟩
  · intro sql maxRows hsemi
    simp only [Ptop.timescaleSqlGate]
    by_cases hq : Ptop.pyStrip sql = ""
    · rw [if_pos hq]; exact ⟨"empty_query", rfl⟩
    · rw [if_neg hq]
      cases hkw : Ptop.firstKeyword (Ptop.stripLineComments
          (Ptop.stripBlockComments (Ptop.pyStrip sql).data)) with
      | none => simp only [hkw]; exact ⟨"parse_error", rfl⟩
      | some kw0 =>
        simp only [hkw]
        by_cases hd : Ptop.disallowedKeywords.contains (Ptop.pyLower kw0) = true
        · rw [if_pos hd]; exact ⟨"only_select_allowed", rfl⟩
        · rw [if_neg hd]
          by_cases hsw : Ptop.pyLower kw0 ≠ "select" ∧ Ptop.pyLower kw0 ≠ "with"
          · rw [if_pos hsw]; exact ⟨"only_select_allowed", rfl⟩
          · rw [if_neg hsw]
            rw [if_pos hsemi]
            exact ⟨"multiple_statements_disallowed", rfl⟩
  · intro sql maxRows wrapped al h
    simp only [Ptop.timescaleSqlGate] at h
    by_cases hq : Ptop.pyStrip sql = ""
    · rw [if_pos hq] at h; simp at h
    · rw [if_neg hq] at h
      cases hkw : Ptop.firstKeyword (Ptop.stripLineComments
          (Ptop.stripBlockComments (Ptop.pyStrip sql).data)) with
      | none => simp only [hkw] at h; simp at h
      | some kw0 =>
        simp only [hkw] at h
        by_cases hd : Ptop.disallowedKeywords.contains (Ptop.pyLower kw0) = true
        · rw [if_pos hd] at h; simp at h
        · rw [if_neg hd] at h
          by_cases hsw : Ptop.pyLower kw0 ≠ "select" ∧ Ptop.pyLower kw0 ≠ "with"
          · rw [if_pos hsw] at h; simp at h
          · rw [if_neg hsw] at h
            by_cases hsemi : Ptop.pyContains (Ptop.pyRstripChar (Ptop.pyStrip sql) ';') ";" = true
            · rw [if_pos hsemi] at h; simp at h
            · rw [if_neg hsemi] at h
              rw [Ptop.SqlOutcome.run.injEq] at h
              obtain ⟨hw, hal⟩ := h
              refine ⟨hal.symm, ?_, ?_⟩
              · intro htrue
                rw [htrue] at hal
                rw [← hw, if_pos hal]
              · intro hfalse
                rw [hfalse] at hal
                rw [← hw, if_neg (by rw [hal]; exact Bool.false_ne_true)]
  · intro al rc mr
    simp [Ptop.truncatedFlag, Bool.and_eq_true, beq_iff_eq]

/-- Witness for C2 (amended): each part of the theorem applied at a
concrete query. -/
theorem sql_gate_validation_witness :
    (∃ c, Ptop.timescaleSqlGate "UPDATE t SET x = 1" 500 = .fail c) ∧
    (∃ c, Ptop.timescaleSqlGate "select 1; drop table t" 500 = .fail c) ∧
    (true = !Ptop.pyContains (Ptop.pyLower "select 1") " limit " ∧
     (true = true → "WITH _q AS (select 1) SELECT * FROM _q LIMIT 500" =
        "WITH _q AS (" ++ Ptop.pyRstripChar (Ptop.pyStrip "select 1") ';'
          ++ ") SELECT * FROM _q LIMIT " ++ toString (500 : Int)) ∧
     (true = false → "WITH _q AS (select 1) SELECT * FROM _q LIMIT 500" =
        Ptop.pyRstripChar (Ptop.pyStrip "select 1") ';')) ∧
    Ptop.truncatedFlag true 500 500 = true :=
  ⟨sql_gate_validation.1 "UPDATE t SET x = 1" 500 "UPDATE" (by decide) (by decide) (by decide),
   sql_gate_validation.2.1 "select 1; drop table t" 500 (by decide),
   sql_gate_validation.2.2.1 "select 1" 500
     "WITH _q AS (select 1) SELECT * FROM _q LIMIT 500" true (by decide),
   (sql_gate_validation.2.2.2 true 500 500).mpr ⟨rfl, rfl⟩⟩

theorem runRx_lit_pfx (s : String) (ps : List Ptop.Rx) (cs : List Char)
    (r : List String × List Char) (h : Ptop.runRx (.lit s :: ps) cs = some r) :
    Ptop.lcHasPfx s.data cs = true := by
  unfold Ptop.runRx at h
  by_cases hp : Ptop.lcHasPfx s.data cs = true
  · exact hp
  · rw [if_neg hp] at h; cases h

theorem lcHasPfx_shape3 (a b c : Char) (cs : List Char)
    (h : Ptop.lcHasPfx [a, b, c] cs = true) : ∃ rest, cs = a :: b :: c :: rest := by
  cases cs with
  | nil => simp [Ptop.lcHasPfx] at h
  | cons c1 cs1 =>
    cases cs1 with
    | nil => simp [Ptop.lcHasPfx] at h
    | cons c2 cs2 =>
      cases cs2 with
      | nil => simp [Ptop.lcHasPfx] at h
      | cons c3 cs3 =>
        simp only [Ptop.lcHasPfx, Bool.and_eq_true, beq_iff_eq, and_true] at h
        obtain ⟨h1, h2, h3⟩ := h
        exact ⟨cs3, by rw [← h1, ← h2, ← h3]⟩

/-- C7: every NET rate line the parser matches yields one NET_RATE record
whose expansion emits, for each of the six rates, a normalized-name sample
and a legacy-name sample carrying the same numeric value; when the global
labels do not shadow it, the two families carry name_variant=normalized and
name_variant=legacy respectively. -/
theorem net_rate_dual_variant_emission (gl : Ptop.Dct Ptop.PyVal) (ts : Int)
    (line iface : String) (gs : List String) (q1 q2 q3 q4 q5 q6 : ℚ)
    (hm : Ptop.netRateMatch line = some (iface, gs))
    (hf : gs.mapM Ptop.pyFloat = some [q1, q2, q3, q4, q5, q6])
    (hgl : Ptop.dget gl "name_variant" = none) :
    Ptop.parseBody ts line =
      .record ⟨"NET_RATE", Ptop.netRateFields iface q1 q2 q3 q4 q5 q6, ts⟩ ∧
    Ptop.expandRecord gl ⟨"NET_RATE", Ptop.netRateFields iface q1 q2 q3 q4 q5 q6, ts⟩ =
      (Ptop.netRateExpected gl ts iface q1 q2 q3 q4 q5 q6, none) ∧
    Ptop.dget (Ptop.dupdate (Ptop.netBaseNorm iface) gl) "name_variant" =
      some (Ptop.PyVal.str "normalized") ∧
    Ptop.dget (Ptop.dupdate (Ptop.netBaseLegacy iface) gl) "name_variant" =
      some (Ptop.PyVal.str "legacy") := by
  have hpfx : Ptop.lcHasPfx "NET".data line.data = true := by
    unfold Ptop.netRateMatch at hm
    split at hm
    · rename_i pr i g hr
      exact runRx_lit_pfx _ _ _ _ hr
    · cases hm
  obtain ⟨rest, hdata⟩ := lcHasPfx_shape3 'N' 'E' 'T' line.data hpfx
  have hsm : Ptop.smapsMatch line = none := by
    unfold Ptop.smapsMatch Ptop.runRx
    rw [hdata]
    rfl
  have hcpu : Ptop.cpuFullMatch line = none := by
    unfold Ptop.cpuFullMatch Ptop.runRx
    rw [hdata]
    rfl
  have hmem : Ptop.pyStartsWith line "MEM " = false := by
    unfold Ptop.pyStartsWith
    rw [hdata]
    rfl
  have hdisk : Ptop.diskMatch line = none := by
    unfold Ptop.diskMatch Ptop.runRx
    rw [hdata]
    rfl
  have hcc : Ptop.pyStartsWith line "CPU:" = false := by
    unfold Ptop.pyStartsWith
    rw [hdata]
    rfl
  have hcs : Ptop.pyStartsWith line "CPU " = false := by
    unfold Ptop.pyStartsWith
    rw [hdata]
    rfl
  refine ⟨?_, ?_, ?_, ?_⟩
  · simp only [Ptop.parseBody]
    rw [if_neg (by rw [hcc]; exact Bool.false_ne_true)]
    rw [if_neg (fun hand => absurd hand.1 (by rw [hcs]; exact Bool.false_ne_true))]
    unfold Ptop.parseMain
    simp only [hsm, hcpu, hmem, hdisk, hm, hf, Bool.false_eq_true, if_false]
    rfl
  · rfl
  · rw [dget_dupdate_right_none _ _ _ hgl]
    rfl
  · rw [dget_dupdate_right_none _ _ _ hgl]
    rfl

/-- Witness for C7: the theorem applied to a concrete NET rate line with
empty global labels. -/
theorem net_rate_dual_variant_emission_witness :
    Ptop.parseBody 0 "NET eth0 rk 1.0 2.0 tk 3.0 4.0 rd 5.0 td 6.0" =
      .record ⟨"NET_RATE",
        Ptop.netRateFields "eth0" (mkRat 1 1) (mkRat 2 1) (mkRat 3 1)
          (mkRat 4 1) (mkRat 5 1) (mkRat 6 1), 0⟩ ∧
    Ptop.expandRecord [] ⟨"NET_RATE",
        Ptop.netRateFields "eth0" (mkRat 1 1) (mkRat 2 1) (mkRat 3 1)
          (mkRat 4 1) (mkRat 5 1) (mkRat 6 1), 0⟩ =
      (Ptop.netRateExpected [] 0 "eth0" (mkRat 1 1) (mkRat 2 1) (mkRat 3 1)
          (mkRat 4 1) (mkRat 5 1) (mkRat 6 1), none) ∧
    Ptop.dget (Ptop.dupdate (Ptop.netBaseNorm "eth0") []) "name_variant" =
      some (Ptop.PyVal.str "normalized") ∧
    Ptop.dget (Ptop.dupdate (Ptop.netBaseLegacy "eth0") []) "name_variant" =
      some (Ptop.PyVal.str "legacy") :=
  net_rate_dual_variant_emission [] 0 "NET eth0 rk 1.0 2.0 tk 3.0 4.0 rd 5.0 td 6.0"
    "eth0" ["1.0", "2.0", "3.0", "4.0", "5.0", "6.0"]
    (mkRat 1 1) (mkRat 2 1) (mkRat 3 1) (mkRat 4 1) (mkRat 5 1) (mkRat 6 1)
    (by decide) (by decide) rfl

/-- C8 (amended): with four well-formed ptop log names of strictly
increasing embedded timestamps and max_files=2, discovery selects the two
newest files in chronological order and warns max_files_truncated together
with selected_2_of_2_candidates_requested_2 — the candidate count in the
message is taken after truncation, so it reports 2, not 4. -/
theorem discover_max_files_selection
    (n1 n2 n3 n4 d81 d41 d82 d42 d83 d43 d84 d44 : String) (t1 t2 t3 t4 : Nat)
    (hm1 : Ptop.ptopLogMatch n1 = some (d81, d41))
    (ht1 : Ptop.pyStrptimeYmdHm d81 d41 = some t1)
    (hm2 : Ptop.ptopLogMatch n2 = some (d82, d42))
    (ht2 : Ptop.pyStrptimeYmdHm d82 d42 = some t2)
    (hm3 : Ptop.ptopLogMatch n3 = some (d83, d43))
    (ht3 : Ptop.pyStrptimeYmdHm d83 d43 = some t3)
    (hm4 : Ptop.ptopLogMatch n4 = some (d84, d44))
    (ht4 : Ptop.pyStrptimeYmdHm d84 d44 = some t4)
    (h12 : t1 < t2) (h23 : t2 < t3) (h34 : t3 < t4) :
    Ptop.discoverPtopLogs [n1, n2, n3, n4] 2 =
      ([n3, n4], ["max_files_truncated", "selected_2_of_2_candidates_requested_2"]) := by
  have hcand : Ptop.collectCandidates [n1, n2, n3, n4] =
      ([(t1, n1), (t2, n2), (t3, n3), (t4, n4)], []) := by
    simp only [Ptop.collectCandidates, hm1, ht1, hm2, ht2, hm3, ht3, hm4, ht4]
  have hc12 : Ptop.candLt (t1, n1) (t2, n2) = true := by
    simp [Ptop.candLt]
    omega
  have hc23 : Ptop.candLt (t2, n2) (t3, n3) = true := by
    simp [Ptop.candLt]
    omega
  have hc34 : Ptop.candLt (t3, n3) (t4, n4) = true := by
    simp [Ptop.candLt]
    omega
  have hsort : Ptop.pySortDesc [(t1, n1), (t2, n2), (t3, n3), (t4, n4)] =
      [(t4, n4), (t3, n3), (t2, n2), (t1, n1)] := by
    simp [Ptop.pySortDesc, Ptop.insertDesc, hc12, hc23, hc34]
  have hsortasc : Ptop.pySortAsc [(t4, n4), (t3, n3)] = [(t3, n3), (t4, n4)] := by
    simp [Ptop.pySortAsc, Ptop.insertAsc, hc34]
  simp [Ptop.discoverPtopLogs, hcand, hsort, hsortasc]
  rfl

/-- Witness for C8 (amended): four concrete January 2025 log names with
max_files=2. -/
theorem discover_max_files_selection_witness :
    Ptop.discoverPtopLogs
      ["ptop-20250101_1200.log", "ptop-20250102_1200.log",
       "ptop-20250103_1200.log", "ptop-20250104_1200.log"] 2 =
      (["ptop-20250103_1200.log", "ptop-20250104_1200.log"],
       ["max_files_truncated", "selected_2_of_2_candidates_requested_2"]) :=
  discover_max_files_selection
    "ptop-20250101_1200.log" "ptop-20250102_1200.log"
    "ptop-20250103_1200.log" "ptop-20250104_1200.log"
    "20250101" "1200" "20250102" "1200" "20250103" "1200" "20250104" "1200"
    1213104240 1213105680 1213107120 1213108560
    (by decide) (by decide) (by decide) (by decide) (by decide) (by decide)
    (by decide) (by decide) (by decide) (by decide) (by decide)

/-- C9 (amended): extraction keeps exactly the archive members whose name
neither starts with '/' nor has a path segment equal to '..'; every other
member is skipped.  The '..' test is on segments of the '/'-split name, not
on substrings. -/
theorem extraction_member_filter (names : List String) (m : String) :
    m ∈ Ptop.extractedMembers names ↔
      m ∈ names ∧ ¬(Ptop.pyStartsWith m "/" = true ∨
        ".." ∈ Ptop.pySplitSep m '/') := by
  unfold Ptop.extractedMembers Ptop.memberUnsafe
  rw [List.mem_filter]
  constructor
  · rintro ⟨hmem, hb⟩
    refine ⟨hmem, ?_⟩
    rintro (hs | hseg)
    · rw [hs] at hb
      simp at hb
    · have hc : (Ptop.pySplitSep m '/').contains ".." = true :=
        List.elem_eq_true_of_mem hseg
      rw [hc] at hb
      simp at hb
  · rintro ⟨hmem, hn⟩
    refine ⟨hmem, ?_⟩
    push_neg at hn
    obtain ⟨hs, hseg⟩ := hn
    have hs' : Ptop.pyStartsWith m "/" = false := by
      cases hb : Ptop.pyStartsWith m "/"
      · rfl
      · exact absurd hb hs
    have hc : (Ptop.pySplitSep m '/').contains ".." = false := by
      cases hb : (Ptop.pySplitSep m '/').contains ".."
      · rfl
      · exact absurd (List.mem_of_elem_eq_true hb) hseg
    rw [hs', hc]
    rfl
